import Mathlib

/-!
Verification development for the MAAS Angular client (browser-side UI layer).

The definitions below are a shallow embedding of the JavaScript source:

* the node storage controller (`NodeStorageController`): selection modes,
  derived filesystem / cache-set / available-disk views, their selection
  bookkeeping, and the confirm/cancel operations;
* the nodes list controller's `updateAllViewableChecked`;
* the `ControllersManager` factory (its constructor and `performAction`);
* the RAID mode table (`RAID_MODES`) and size calculation;
* the active-item tracker of the generic `Manager` base class
  (modelled from the specification, since that file is not part of the
  sources under verification).

JavaScript numbers are modelled as rationals (`ℚ`), JavaScript
`null`/`undefined` as `Option`, JavaScript objects used as string-keyed
maps as association lists, and the injected `ConverterService` (whose
source is not part of the verified tree) as an abstract record of
functions.  Remote procedure calls are accumulated in an explicit log.
-/

namespace Maas

/-! ## JavaScript-style primitives -/

/-- Decimal digit characters, as produced by JavaScript number-to-string
conversion for a single digit value. -/
def digitChar (d : Nat) : Char :=
  if d = 0 then '0'
  else if d = 1 then '1'
  else if d = 2 then '2'
  else if d = 3 then '3'
  else if d = 4 then '4'
  else if d = 5 then '5'
  else if d = 6 then '6'
  else if d = 7 then '7'
  else if d = 8 then '8'
  else if d = 9 then '9'
  else '*'

/-- Little-endian decimal digits of a natural number, computed with explicit
fuel so that the definition is structurally recursive. -/
def natToDigitsRev (fuel : Nat) (n : Nat) : List Nat :=
  match fuel with
  | 0 => []
  | f + 1 => if n = 0 then [] else n % 10 :: natToDigitsRev f (n / 10)

/-- Little-endian decimal digits of a natural number. -/
def natDigits (n : Nat) : List Nat :=
  natToDigitsRev (n + 1) n

/-- Little-endian decimal digits as rendered by JavaScript: zero prints as a
single `0` digit. -/
def natDigitsJs (n : Nat) : List Nat :=
  if n = 0 then [0] else natDigits n

/-- Decimal rendering of a natural number, modelling JavaScript's implicit
number-to-string conversion for the non-negative integers used as ids. -/
def natToString (n : Nat) : String :=
  String.mk (((natDigitsJs n).map digitChar).reverse)

/-- JavaScript string conversion of a possibly-`null` number field. -/
def jsNullNat (o : Option Nat) : String :=
  match o with
  | none => "null"
  | some n => natToString n

/-- JavaScript string conversion of a possibly-`undefined` number field. -/
def jsUndefNat (o : Option Nat) : String :=
  match o with
  | none => "undefined"
  | some n => natToString n

/-- JavaScript string conversion of a possibly-`undefined` string field. -/
def jsUndefStr (o : Option String) : String :=
  match o with
  | none => "undefined"
  | some s => s

/-- Assignment `m[k] = v` on a JavaScript object used as a map: replace the
binding if the key is present, otherwise append it. -/
def objSet {α : Type} (m : List (String × α)) (k : String) (v : α) :
    List (String × α) :=
  match m with
  | [] => [(k, v)]
  | (k2, v2) :: rest => if k2 = k then (k, v) :: rest else (k2, v2) :: objSet rest k v

/-! ## `ControllersManager` (factories/controllers.js) -/

/-- The identity of a `ControllersManager` as built by its constructor:
its primary-key field name, its object-type tag, and the channel name it
passes to `RegionConnection.registerNotifier` for its `onNotify` callback. -/
structure ControllersManagerState where
  pk : String
  handler : String
  notifyChannel : String
  deriving DecidableEq, Repr

/-- The `ControllersManager` singleton built by the factory constructor:
`this._pk = "system_id"`, `this._handler = "controller"`, and
`RegionConnection.registerNotifier("machine", ...)`. -/
def controllersManager : ControllersManagerState :=
  { pk := "system_id", handler := "controller", notifyChannel := "machine" }

/-- A controller item, as consumed by `performAction` (only its primary-key
field is read). -/
structure Ctrl where
  system_id : String
  deriving DecidableEq, Repr

/-- The parameter mapping sent by `ControllersManager.performAction`. -/
structure CtrlActionParams where
  system_id : String
  action : String
  extra : List (String × String)
  deriving DecidableEq, Repr

/-- Outcome of a transport-level call: the promise either resolves with the
server result or rejects with the server error. -/
inductive CtrlPromise (ρ ε : Type) where
  | resolved (r : ρ)
  | rejected (e : ε)

/-- `ControllersManager.prototype.performAction(controller, action, extra)`:
defaults `extra` to `{}` when the caller did not supply an object, then calls
`RegionConnection.callMethod("controller.action", {system_id, action, extra})`.
The result is the list of issued calls paired with the transport's outcome. -/
def performAction {ρ ε : Type}
    (callMethod : String → CtrlActionParams → CtrlPromise ρ ε)
    (controller : Ctrl) (action : String)
    (extra : Option (List (String × String))) :
    List (String × CtrlActionParams) × CtrlPromise ρ ε :=
  let extra2 := match extra with
    | some e => e
    | none => []
  let params : CtrlActionParams :=
    { system_id := controller.system_id, action := action, extra := extra2 }
  ([("controller.action", params)], callMethod "controller.action" params)

/-! ## Active-item tracker

Modelled from the spec: the generic `Manager` base class that owns the
active-item pointer is not among the source files; the specification
describes `setActiveItem` as an asynchronous activation guarded by a
monotonically increasing request token that is compared at resolution time,
with the most recent request's result winning. -/

/-- Modelled from the spec: the active-item state of an Item Store — a single
optional active item plus the token of the most recent activation request. -/
structure ActiveTracker (α : Type) where
  activeItem : Option α
  requestId : Nat

/-- Modelled from the spec: starting an activation issues the next request
token and begins a fetch; the state is returned with the fresh token. -/
def beginActivation {α : Type} (s : ActiveTracker α) : ActiveTracker α × Nat :=
  ({ s with requestId := s.requestId + 1 }, s.requestId + 1)

/-- Modelled from the spec: when an activation fetch resolves, its token is
compared with the most recent one; a stale resolution is discarded. -/
def resolveActivation {α : Type} (s : ActiveTracker α) (token : Nat) (item : α) :
    ActiveTracker α :=
  if token = s.requestId then { s with activeItem := some item } else s

/-- Number of items marked active. -/
def activeCount {α : Type} (s : ActiveTracker α) : Nat :=
  match s.activeItem with
  | none => 0
  | some _ => 1

/-! ## RAID modes (NodeStorageController) -/

/-- One entry of the `RAID_MODES` table. -/
structure RaidMode where
  level : String
  title : String
  min_disks : Nat
  allows_spares : Bool
  calculateSize : ℚ → ℚ → ℚ

/-- The `RAID_MODES` table of the storage controller. -/
def RAID_MODES : List RaidMode :=
  [ { level := "raid-0", title := "RAID 0", min_disks := 2, allows_spares := false,
      calculateSize := fun minSize numDisks => minSize * numDisks },
    { level := "raid-1", title := "RAID 1", min_disks := 2, allows_spares := true,
      calculateSize := fun minSize _ => minSize },
    { level := "raid-5", title := "RAID 5", min_disks := 3, allows_spares := true,
      calculateSize := fun minSize numDisks => minSize * (numDisks - 1) },
    { level := "raid-6", title := "RAID 6", min_disks := 4, allows_spares := true,
      calculateSize := fun minSize numDisks => minSize * (numDisks - 2) },
    { level := "raid-10", title := "RAID 10", min_disks := 3, allows_spares := true,
      calculateSize := fun minSize numDisks => minSize * numDisks / 2 } ]

/-- The RAID size formulas exactly as the specification states them, keyed by
RAID level; `none` for a level the specification does not list. -/
def raidSizeSpec (level : String) (minSize numDisks : ℚ) : Option ℚ :=
  if level = "raid-0" then some (minSize * numDisks)
  else if level = "raid-1" then some minSize
  else if level = "raid-5" then some (minSize * (numDisks - 1))
  else if level = "raid-6" then some (minSize * (numDisks - 2))
  else if level = "raid-10" then some (minSize * numDisks / 2)
  else none

/-! ## NodeStorageController: constants and data model -/

/-- Selection modes of the storage controller (`SELECTION_MODE`); `NONE`
models the JavaScript `null` value, and the source's spelling `MUTLI` is
kept. -/
inductive SelectionMode where
  | NONE
  | SINGLE
  | MUTLI
  | UNMOUNT
  | UNFORMAT
  | DELETE
  | FORMAT_AND_MOUNT
  | PARTITION
  | BCACHE
  | RAID
  | VOLUME_GROUP
  | LOGICAL_VOLUME
  deriving DecidableEq, Repr

def INITIAL_PARTITION_OFFSET : ℚ := 4 * 1024 * 1024

def END_OF_PARTITION_TABLE_SPACE : ℚ := 1024 * 1024

def PARTITION_TABLE_EXTRA_SPACE : ℚ :=
  INITIAL_PARTITION_OFFSET + END_OF_PARTITION_TABLE_SPACE

def PREP_PARTITION_SIZE : ℚ := 8 * 1024 * 1024

def PARTITION_ALIGNMENT_SIZE : ℚ := 4 * 1024 * 1024

def MIN_PARTITION_SIZE : ℚ := PARTITION_ALIGNMENT_SIZE

/-- `Number.MAX_VALUE`, the start value of the minimum-size fold in
`getNewRAIDSize`. -/
def jsMaxValue : ℚ := (2 ^ 53 - 1) * 2 ^ 971

/-- A filesystem record attached to a disk or partition. -/
structure Filesystem where
  fstype : String
  mount_point : Option String
  mount_options : Option String
  is_format_fstype : Bool
  deriving DecidableEq, Repr

/-- The `parent` reference of a virtual disk. -/
structure ParentInfo where
  type : String
  deriving DecidableEq, Repr

/-- A partition of a disk, with the fields the storage controller reads. -/
structure Partition where
  id : Nat
  name : String
  size_human : String
  available_size_human : String
  used_size_human : String
  type : String
  filesystem : Option Filesystem
  available_size : ℚ
  used_size : ℚ
  size : ℚ
  used_for : String
  deriving DecidableEq, Repr

/-- An entry of `node.disks`, with the fields the storage controller reads. -/
structure Disk where
  id : Nat
  name : String
  size_human : String
  available_size_human : String
  used_size_human : String
  type : String
  model : String
  serial : String
  tags : List String
  filesystem : Option Filesystem
  partitions : List Partition
  available_size : ℚ
  used_size : ℚ
  size : ℚ
  partition_table_type : Option String
  is_boot : Bool
  used_for : String
  parent : Option ParentInfo
  deriving DecidableEq, Repr

/-- The node shown by the storage controller. -/
structure Node where
  system_id : String
  architecture : String
  owner : String
  status : String
  disks : List Disk
  special_filesystems : List Filesystem
  deriving DecidableEq, Repr

/-- The authenticated user, as returned by `UsersManager.getAuthUser()`. -/
structure User where
  is_superuser : Bool
  username : String
  deriving DecidableEq, Repr

/-- The fields of a derived row that `getUniqueKey` reads. -/
structure DiskKeyFields where
  type : String
  cache_set_id : Option Nat
  block_id : Option Nat
  partition_id : Option Nat
  deriving DecidableEq, Repr

/-- A tag formatted for `ngTagInput` by `getTags`. -/
structure Tag where
  text : String
  deriving DecidableEq, Repr

/-- The original disk or partition object referenced from a derived row, with
the fields read through `.original`. -/
structure OrigRef where
  id : Nat
  name : String
  available_size : ℚ
  available_size_human : String
  size : ℚ
  partition_table_type : Option String
  is_boot : Bool
  used_size : ℚ
  deriving DecidableEq, Repr

/-- The per-row `$options` edit buffer; every field is optional because the
buffer is an open object whose shape depends on the current action. -/
structure AvailOptions where
  size : Option String
  sizeUnits : Option String
  fstype : Option String
  mountPoint : Option String
  mountOptions : Option String
  name : Option String
  editingTags : Bool
  tags : Option (List Tag)
  deriving DecidableEq, Repr

/-- The `$options` buffer of a freshly built row (`{}`). -/
def emptyOptions : AvailOptions :=
  { size := none, sizeUnits := none, fstype := none, mountPoint := none,
    mountOptions := none, name := none, editingTags := false, tags := none }

/-- A row of the filesystems section.  `type` is optional because the row
pushed by `availableConfirmFormatAndMount` carries no `type` field. -/
structure FsRow where
  type : Option String
  name : String
  size_human : String
  fstype : Option String
  mount_point : Option String
  mount_options : Option String
  block_id : Option Nat
  partition_id : Option Nat
  original_type : Option String
  original : Option OrigRef
  selected : Bool
  deriving DecidableEq, Repr

/-- A row of the cache-sets section. -/
structure CacheSetRow where
  type : String
  name : String
  size_human : String
  cache_set_id : Nat
  used_by : String
  selected : Bool
  deriving DecidableEq, Repr

/-- A row of the available-disks section. -/
structure AvailRow where
  name : String
  size_human : String
  available_size_human : String
  used_size_human : String
  type : String
  model : String
  serial : String
  tags : List Tag
  fstype : Option String
  mount_point : Option String
  mount_options : Option String
  block_id : Option Nat
  partition_id : Option Nat
  has_partitions : Bool
  is_boot : Bool
  original : OrigRef
  parent_type : Option String
  selected : Bool
  options : AvailOptions
  deriving DecidableEq, Repr

def FsRow.keyFields (r : FsRow) : DiskKeyFields :=
  { type := jsUndefStr r.type, cache_set_id := none,
    block_id := r.block_id, partition_id := r.partition_id }

def CacheSetRow.keyFields (r : CacheSetRow) : DiskKeyFields :=
  { type := r.type, cache_set_id := some r.cache_set_id,
    block_id := none, partition_id := none }

def AvailRow.keyFields (r : AvailRow) : DiskKeyFields :=
  { type := r.type, cache_set_id := none,
    block_id := r.block_id, partition_id := r.partition_id }

/-- The `availableNew` object; every field is optional because it starts
as `{}` and each creation flow fills a different subset. -/
structure AvailableNew where
  name : Option String
  device : Option AvailRow
  devices : Option (List AvailRow)
  cacheset : Option CacheSetRow
  cacheMode : Option String
  mode : Option RaidMode
  spares : Option (List String)
  fstype : Option String
  mountPoint : Option String
  mountOptions : Option String

/-- The empty `availableNew` object (`{}`). -/
def emptyAvailableNew : AvailableNew :=
  { name := none, device := none, devices := none, cacheset := none,
    cacheMode := none, mode := none, spares := none, fstype := none,
    mountPoint := none, mountOptions := none }

/-- Result object of `ConverterService.bytesToUnits`; the controller reads
its `string` field. -/
structure ConvertedBytes where
  string : String

/-- The injected `ConverterService`, abstracted as a record of functions
(its source is not part of the verified tree). -/
structure Converter where
  unitsToBytes : String → String → ℚ
  roundUnits : String → String → ℚ
  roundByBlockSize : ℚ → ℚ → ℚ
  bytesToUnits : ℚ → ConvertedBytes

/-- Remote calls issued through `MachinesManager`, recorded with the
arguments the storage controller passes. -/
inductive StorageRpc where
  | updateFilesystem (system_id : String) (block_id : Option Nat)
      (partition_id : Option Nat) (fstype : Option String)
      (mount_point : Option String) (mount_options : Option String)
  | deleteDisk (system_id : String) (block_id : Option Nat)
  | deletePartition (system_id : String) (partition_id : Option Nat)
  | deleteVolumeGroup (system_id : String) (volume_group_id : Option Nat)
  | deleteCacheSet (system_id : String) (cache_set_id : Nat)
  | unmountSpecialFilesystem (system_id : String) (mount_point : Option String)
  | createPartition (system_id : String) (block_id : Option Nat)
      (partition_size : ℚ) (fstype : Option String)
      (mount_point : Option String) (mount_options : Option String)
  | createCacheSet (system_id : String) (block_id : Option Nat)
      (partition_id : Option Nat)
  | createLogicalVolume (system_id : String) (volume_group_id : Option Nat)
      (name : String) (size : ℚ) (fstype : Option String)
      (mount_point : Option String) (mount_options : Option String)
  deriving DecidableEq, Repr

/-- The storage controller's scope: the node, the authenticated user, the
three derived sections with their key maps, selection modes and
"all selected" flags, the `availableNew` object, and the log of remote
calls issued so far. -/
structure Scope where
  node : Node
  authUser : Option User
  filesystems : List FsRow
  filesystemsMap : List (String × FsRow)
  filesystemMode : SelectionMode
  filesystemAllSelected : Bool
  cachesets : List CacheSetRow
  cachesetsMap : List (String × CacheSetRow)
  cachesetsMode : SelectionMode
  cachesetsAllSelected : Bool
  available : List AvailRow
  availableMap : List (String × AvailRow)
  availableMode : SelectionMode
  availableAllSelected : Bool
  availableNew : AvailableNew
  rpcs : List StorageRpc

/-! ## NodeStorageController: pure helpers -/

/-- `angular.isString(o) && o !== ""` for a possibly-absent string field. -/
def jsIsNonemptyString (o : Option String) : Bool :=
  match o with
  | some s => s ≠ ""
  | none => false

/-- `o || dflt` for a string field (the empty string is falsy). -/
def jsOrString (o : Option String) (dflt : String) : String :=
  match o with
  | some s => if s = "" then dflt else s
  | none => dflt

/-- `a || b` for two numbers (zero is falsy). -/
def jsOrQ (a b : ℚ) : ℚ :=
  if a = 0 then b else a

/-- `isMountedFilesystem(filesystem)`: the filesystem exists and its mount
point is a non-empty string. -/
def isMountedFilesystem (filesystem : Option Filesystem) : Bool :=
  match filesystem with
  | some fs => jsIsNonemptyString fs.mount_point
  | none => false

/-- `hasMountedFilesystem(item)`, applied to the item's `filesystem` field. -/
def hasMountedFilesystem (filesystem : Option Filesystem) : Bool :=
  isMountedFilesystem filesystem

/-- `hasFormattedUnmountedFilesystem(item)`: the fstype when the item has a
filesystem with no mount point, otherwise `null`. -/
def hasFormattedUnmountedFilesystem (filesystem : Option Filesystem) :
    Option String :=
  match filesystem with
  | some fs =>
    if fs.fstype ≠ "" &&
        (match fs.mount_point with
         | some mp => mp = ""
         | none => true) then
      some fs.fstype
    else none
  | none => none

/-- `isInUse(item)`, applied to the item's `type`, `filesystem` and
`available_size` fields. -/
def isInUse (type : String) (filesystem : Option Filesystem)
    (available_size : ℚ) : Bool :=
  if type = "cache-set" then true
  else
    match filesystem with
    | some fs =>
      if fs.is_format_fstype && jsIsNonemptyString fs.mount_point then true
      else if !fs.is_format_fstype then true
      else false
    | none => decide (available_size < MIN_PARTITION_SIZE)

/-- `getTags(disk)`: format the tags for `ngTagInput`. -/
def getTags (tags : List String) : List Tag :=
  tags.map (fun t => { text := t })

/-- `getUniqueKey(disk)`: a stable key derived from the row's type and id
fields. -/
def getUniqueKey (disk : DiskKeyFields) : String :=
  if disk.type = "cache-set" then
    "cache-set-" ++ jsUndefNat disk.cache_set_id
  else
    let key := disk.type ++ "-" ++ jsNullNat disk.block_id
    match disk.partition_id with
    | some pid => key ++ "-" ++ natToString pid
    | none => key

/-- The key formula exactly as the claim states it: `"cache-set-" +
cache_set_id` for cache-set rows, otherwise `type + "-" + block_id` with
`"-" + partition_id` appended when the partition id is a number. -/
def getUniqueKeySpec (disk : DiskKeyFields) : String :=
  if disk.type = "cache-set" then
    "cache-set-" ++ jsUndefNat disk.cache_set_id
  else
    match disk.partition_id with
    | some pid =>
      disk.type ++ "-" ++ jsNullNat disk.block_id ++ "-" ++ natToString pid
    | none => disk.type ++ "-" ++ jsNullNat disk.block_id

/-- `isNumber(string)`: the regular expression test for an optionally signed
decimal number (digits, optionally a dot and more digits). -/
def isNumber (s : String) : Bool :=
  let l :=
    match s.data with
    | '-' :: t => t
    | l => l
  let p := l.span (·.isDigit)
  if p.1.isEmpty then false
  else
    match p.2 with
    | [] => true
    | c :: r2 => c == '.' && r2.all (·.isDigit)

/-- `isNameAlreadyInUse(name, exclude_disk)`: another disk or partition of
the node already has this name. -/
def isNameAlreadyInUse (node : Node) (name : String)
    (exclude_disk : Option AvailRow) : Bool :=
  node.disks.any (fun disk =>
    (disk.name == name &&
      (match exclude_disk with
       | none => true
       | some e => e.type == "partition" || e.block_id != some disk.id)) ||
    disk.partitions.any (fun p =>
      p.name == name &&
        (match exclude_disk with
         | none => true
         | some e => e.type != "partition" || e.partition_id != some p.id)))

/-- `isLogicalVolume(disk)`. -/
def isLogicalVolume (disk : AvailRow) : Bool :=
  disk.type == "virtual" && disk.parent_type == some "lvm-vg"

/-- `getIndexFromName(prefix, name)`: the number in `name` after the prefix,
when the whole name is the prefix followed by digits. -/
def getIndexFromName (pre : String) (name : String) : Option Nat :=
  if name.startsWith pre then (name.drop pre.length).toNat? else none

/-- `getNextName(prefix)`: the prefix followed by one more than the largest
index any disk or partition name carries for this prefix. -/
def getNextName (node : Node) (pre : String) : String :=
  let idx : Int := node.disks.foldl
    (fun acc disk =>
      let a1 :=
        match getIndexFromName pre disk.name with
        | some d => max acc (d : Int)
        | none => acc
      disk.partitions.foldl
        (fun acc2 p =>
          match getIndexFromName pre p.name with
          | some d => max acc2 (d : Int)
          | none => acc2) a1)
    (-1)
  pre ++ natToString (idx + 1).toNat

/-- `hasUnmountedFilesystem(disk)` for a derived row. -/
def hasUnmountedFilesystem (disk : AvailRow) : Bool :=
  match disk.fstype with
  | some f =>
    if f ≠ "" then
      match disk.mount_point with
      | none => true
      | some mp => mp = ""
    else false
  | none => false

/-- `usesMountPoint(fstype)`: the filesystem can be mounted at a directory. -/
def usesMountPoint (fstype : Option String) : Bool :=
  match fstype with
  | some f => f ≠ "swap"
  | none => false

/-- `isMountPointInvalid(mountPoint)`: an undefined or empty mount point is
not invalid, `"none"` is allowed for swap, anything else must start with a
slash. -/
def isMountPointInvalid (mountPoint : Option String) : Bool :=
  match mountPoint with
  | none => false
  | some s =>
    if s = "" then false
    else if s = "none" then false
    else if s.front ≠ '/' then true
    else false

/-- `fstypeChanged(options)`: clear or adjust the mount point when the
chosen filesystem type changes. -/
def fstypeChanged (options : AvailOptions) : AvailOptions :=
  match options.fstype with
  | none => { options with mountPoint := some "", mountOptions := some "" }
  | some f =>
    if usesMountPoint (some f) then
      if options.mountPoint = some "none" then
        { options with mountPoint := some "" }
      else options
    else { options with mountPoint := some "none" }

/-- `origOfDisk`: the disk itself, as seen through a row's `original`
reference. -/
def origOfDisk (disk : Disk) : OrigRef :=
  { id := disk.id, name := disk.name, available_size := disk.available_size,
    available_size_human := disk.available_size_human, size := disk.size,
    partition_table_type := disk.partition_table_type, is_boot := disk.is_boot,
    used_size := disk.used_size }

/-- `origOfPartition`: the partition itself, as seen through a row's
`original` reference. -/
def origOfPartition (p : Partition) : OrigRef :=
  { id := p.id, name := p.name, available_size := p.available_size,
    available_size_human := p.available_size_human, size := p.size,
    partition_table_type := none, is_boot := false, used_size := p.used_size }

/-! ## NodeStorageController: derived-view recomputation -/

/-- The filesystem rows `updateFilesystems` builds from `node.disks` and
`node.special_filesystems`, before selection carry-over. -/
def builtFilesystems (node : Node) : List FsRow :=
  (node.disks.flatMap (fun disk =>
    (if hasMountedFilesystem disk.filesystem then
      [{ type := some "filesystem", name := disk.name,
         size_human := disk.size_human,
         fstype := (match disk.filesystem with
                    | some f => some f.fstype
                    | none => none),
         mount_point := (match disk.filesystem with
                         | some f => f.mount_point
                         | none => none),
         mount_options := (match disk.filesystem with
                           | some f => f.mount_options
                           | none => none),
         block_id := some disk.id, partition_id := none,
         original_type := some disk.type, original := some (origOfDisk disk),
         selected := false }]
     else []) ++
    disk.partitions.filterMap (fun p =>
      if hasMountedFilesystem p.filesystem then
        some { type := some "filesystem", name := p.name,
               size_human := p.size_human,
               fstype := (match p.filesystem with
                          | some f => some f.fstype
                          | none => none),
               mount_point := (match p.filesystem with
                               | some f => f.mount_point
                               | none => none),
               mount_options := (match p.filesystem with
                                 | some f => f.mount_options
                                 | none => none),
               block_id := some disk.id, partition_id := some p.id,
               original_type := some "partition",
               original := some (origOfPartition p), selected := false }
      else none))) ++
  node.special_filesystems.map (fun fs =>
    { type := some "filesystem", name := "—", size_human := "—",
      fstype := some fs.fstype, mount_point := fs.mount_point,
      mount_options := fs.mount_options, block_id := none,
      partition_id := none, original_type := some "special", original := none,
      selected := false })

/-- Selection carry-over for one rebuilt filesystem row: keep the old row's
`$selected` when the key matches, otherwise start unselected. -/
def fsCarry (oldMap : List (String × FsRow)) (fs : FsRow) : FsRow :=
  match List.lookup (getUniqueKey fs.keyFields) oldMap with
  | some oldFilesystem => { fs with selected := oldFilesystem.selected }
  | none => { fs with selected := false }

/-- Rebuild `filesystemsMap` from the new rows. -/
def fsMapOfRows (rows : List FsRow) : List (String × FsRow) :=
  rows.foldl (fun m fs => objSet m (getUniqueKey fs.keyFields) fs) []

/-- The cache-set rows `updateCacheSets` builds from `node.disks`. -/
def builtCacheSets (node : Node) : List CacheSetRow :=
  node.disks.filterMap (fun disk =>
    if disk.type = "cache-set" then
      some { type := "cache-set", name := disk.name,
             size_human := disk.size_human, cache_set_id := disk.id,
             used_by := disk.used_for, selected := false }
    else none)

/-- Selection carry-over for one rebuilt cache-set row. -/
def csCarry (oldMap : List (String × CacheSetRow)) (cacheset : CacheSetRow) :
    CacheSetRow :=
  match List.lookup (getUniqueKey cacheset.keyFields) oldMap with
  | some oldCacheSet => { cacheset with selected := oldCacheSet.selected }
  | none => { cacheset with selected := false }

/-- Rebuild `cachesetsMap` from the new rows. -/
def csMapOfRows (rows : List CacheSetRow) : List (String × CacheSetRow) :=
  rows.foldl (fun m r => objSet m (getUniqueKey r.keyFields) r) []

/-- The available row built for an unused disk. -/
def diskAvailRow (disk : Disk) : AvailRow :=
  { name := disk.name, size_human := disk.size_human,
    available_size_human := disk.available_size_human,
    used_size_human := disk.used_size_human, type := disk.type,
    model := disk.model, serial := disk.serial, tags := getTags disk.tags,
    fstype := hasFormattedUnmountedFilesystem disk.filesystem,
    mount_point := none, mount_options := none, block_id := some disk.id,
    partition_id := none,
    has_partitions := decide (disk.partitions.length > 0),
    is_boot := disk.is_boot, original := origOfDisk disk,
    parent_type :=
      (if disk.type = "virtual" then
        match disk.parent with
        | some par => some par.type
        | none => none
      else none),
    selected := false, options := emptyOptions }

/-- The available row built for an unused partition. -/
def partitionAvailRow (disk : Disk) (p : Partition) : AvailRow :=
  { name := p.name, size_human := p.size_human,
    available_size_human := p.available_size_human,
    used_size_human := p.used_size_human, type := "partition", model := "",
    serial := "", tags := [],
    fstype := hasFormattedUnmountedFilesystem p.filesystem,
    mount_point := none, mount_options := none, block_id := some disk.id,
    partition_id := some p.id, has_partitions := false, is_boot := false,
    original := origOfPartition p, parent_type := none, selected := false,
    options := emptyOptions }

/-- The available rows `updateAvailable` builds from `node.disks`, before
carry-over of `$selected` and `$options`. -/
def builtAvailable (node : Node) : List AvailRow :=
  node.disks.flatMap (fun disk =>
    (if !isInUse disk.type disk.filesystem disk.available_size then
      [diskAvailRow disk]
     else []) ++
    disk.partitions.filterMap (fun p =>
      if !isInUse p.type p.filesystem p.available_size then
        some (partitionAvailRow disk p)
      else none))

/-- Carry-over for one rebuilt available row: keep the old row's `$selected`
and `$options` when the key matches, otherwise start unselected with empty
options. -/
def availCarry (oldMap : List (String × AvailRow)) (disk : AvailRow) :
    AvailRow :=
  match List.lookup (getUniqueKey disk.keyFields) oldMap with
  | some oldDisk =>
    { disk with selected := oldDisk.selected, options := oldDisk.options }
  | none => { disk with selected := false, options := emptyOptions }

/-- Rebuild `availableMap` from the new rows. -/
def availMapOfRows (rows : List AvailRow) : List (String × AvailRow) :=
  rows.foldl (fun m r => objSet m (getUniqueKey r.keyFields) r) []

/-! ## NodeStorageController: user / permission helpers -/

/-- `isSuperUser()`: the authenticated user exists and is a superuser. -/
def isSuperUser (s : Scope) : Bool :=
  match s.authUser with
  | none => false
  | some authUser => authUser.is_superuser

/-- `isAllStorageDisabled()`: storage cannot be edited unless the user may
edit the node and the node is Ready or Allocated. -/
def isAllStorageDisabled (s : Scope) : Bool :=
  match s.authUser with
  | none => true
  | some authUser =>
    if !authUser.is_superuser && authUser.username != s.node.owner then true
    else if !(["Ready", "Allocated"].contains s.node.status) then true
    else false

/-! ## NodeStorageController: filesystems section -/

/-- `getSelectedFilesystems()`. -/
def getSelectedFilesystems (s : Scope) : List FsRow :=
  s.filesystems.filter (·.selected)

/-- `updateFilesystemSelection(force)`: recompute the section mode (only
downgrading to `NONE` unless forced) and the "all selected" flag. -/
def updateFilesystemSelection (s : Scope) (force : Bool) : Scope :=
  let filesystems := getSelectedFilesystems s
  let s1 :=
    if filesystems.length = 0 then
      { s with filesystemMode := SelectionMode.NONE }
    else if filesystems.length == 1 && force then
      { s with filesystemMode := SelectionMode.SINGLE }
    else if force then
      { s with filesystemMode := SelectionMode.MUTLI }
    else s
  if s1.filesystems.length = 0 then
    { s1 with filesystemAllSelected := false }
  else if filesystems.length = s1.filesystems.length then
    { s1 with filesystemAllSelected := true }
  else
    { s1 with filesystemAllSelected := false }

/-- `updateFilesystems()`: rebuild the filesystem rows from `node.disks`,
carry the selection over by key, rebuild the key map and update the
selection mode. -/
def updateFilesystems (s : Scope) : Scope :=
  let rows := (builtFilesystems s.node).map (fsCarry s.filesystemsMap)
  updateFilesystemSelection
    { s with filesystems := rows, filesystemsMap := fsMapOfRows rows } false

/-- `toggleFilesystemSelect(filesystem)` for the row at index `i`. -/
def toggleFilesystemSelect (s : Scope) (i : Nat) : Scope :=
  match s.filesystems.get? i with
  | none => s
  | some fs =>
    updateFilesystemSelection
      { s with filesystems := s.filesystems.set i { fs with selected := !fs.selected } }
      true

/-- `toggleFilesystemAllSelect()`. -/
def toggleFilesystemAllSelect (s : Scope) : Scope :=
  let rows := s.filesystems.map (fun fs =>
    if s.filesystemAllSelected then { fs with selected := false }
    else { fs with selected := true })
  updateFilesystemSelection { s with filesystems := rows } true

/-- `filesystemCancel()`. -/
def filesystemCancel (s : Scope) : Scope :=
  updateFilesystemSelection s true

/-- `filesystemUnmount()`: enter unmount mode. -/
def filesystemUnmount (s : Scope) : Scope :=
  { s with filesystemMode := SelectionMode.UNMOUNT }

/-- `quickFilesystemUnmount(filesystem)` for the row at index `i`. -/
def quickFilesystemUnmount (s : Scope) (i : Nat) : Scope :=
  match s.filesystems.get? i with
  | none => s
  | some fs =>
    filesystemUnmount
      (updateFilesystemSelection
        { s with filesystems :=
            ((s.filesystems.map (fun f => { f with selected := false })).set i
              { fs with selected := true }) }
        true)

/-- `filesystemConfirmUnmount(filesystem)` for the row at index `i`. -/
def filesystemConfirmUnmount (s : Scope) (i : Nat) : Scope :=
  match s.filesystems.get? i with
  | none => s
  | some fs =>
    let s1 := { s with rpcs := s.rpcs ++
      [StorageRpc.updateFilesystem s.node.system_id fs.block_id fs.partition_id
        fs.fstype none none] }
    updateFilesystemSelection
      { s1 with filesystems := s1.filesystems.eraseIdx i } false

/-- `filesystemDelete()`: enter delete mode. -/
def filesystemDelete (s : Scope) : Scope :=
  { s with filesystemMode := SelectionMode.DELETE }

/-- `quickFilesystemDelete(filesystem)` for the row at index `i`. -/
def quickFilesystemDelete (s : Scope) (i : Nat) : Scope :=
  match s.filesystems.get? i with
  | none => s
  | some fs =>
    filesystemDelete
      (updateFilesystemSelection
        { s with filesystems :=
            ((s.filesystems.map (fun f => { f with selected := false })).set i
              { fs with selected := true }) }
        true)

/-- `filesystemConfirmDelete(filesystem)` for the row at index `i`. -/
def filesystemConfirmDelete (s : Scope) (i : Nat) : Scope :=
  match s.filesystems.get? i with
  | none => s
  | some fs =>
    if fs.original_type = some "special" then
      let s1 := { s with rpcs := s.rpcs ++
        [StorageRpc.unmountSpecialFilesystem s.node.system_id fs.mount_point] }
      updateFilesystemSelection
        { s1 with filesystems := s1.filesystems.eraseIdx i } false
    else if fs.original_type = some "partition" then
      match fs.original with
      | none => s
      | some original =>
        let s1 := { s with rpcs := s.rpcs ++
          [StorageRpc.deletePartition s.node.system_id (some original.id)] }
        updateFilesystemSelection
          { s1 with filesystems := s1.filesystems.eraseIdx i } false
    else
      match fs.original with
      | none => s
      | some original =>
        let s1 := { s with rpcs := s.rpcs ++
          [StorageRpc.deleteDisk s.node.system_id (some original.id)] }
        updateFilesystemSelection
          { s1 with filesystems := s1.filesystems.eraseIdx i } false

/-! ## NodeStorageController: cache-sets section -/

/-- `getSelectedCacheSets()`. -/
def getSelectedCacheSets (s : Scope) : List CacheSetRow :=
  s.cachesets.filter (·.selected)

/-- `updateCacheSetsSelection(force)`. -/
def updateCacheSetsSelection (s : Scope) (force : Bool) : Scope :=
  let cachesets := getSelectedCacheSets s
  let s1 :=
    if cachesets.length = 0 then
      { s with cachesetsMode := SelectionMode.NONE }
    else if cachesets.length == 1 && force then
      { s with cachesetsMode := SelectionMode.SINGLE }
    else if force then
      { s with cachesetsMode := SelectionMode.MUTLI }
    else s
  if s1.cachesets.length = 0 then
    { s1 with cachesetsAllSelected := false }
  else if cachesets.length = s1.cachesets.length then
    { s1 with cachesetsAllSelected := true }
  else
    { s1 with cachesetsAllSelected := false }

/-- `updateCacheSets()`. -/
def updateCacheSets (s : Scope) : Scope :=
  let rows := (builtCacheSets s.node).map (csCarry s.cachesetsMap)
  updateCacheSetsSelection
    { s with cachesets := rows, cachesetsMap := csMapOfRows rows } false

/-- `toggleCacheSetSelect(cacheset)` for the row at index `i`. -/
def toggleCacheSetSelect (s : Scope) (i : Nat) : Scope :=
  match s.cachesets.get? i with
  | none => s
  | some r =>
    updateCacheSetsSelection
      { s with cachesets := s.cachesets.set i { r with selected := !r.selected } }
      true

/-- `toggleCacheSetAllSelect()`. -/
def toggleCacheSetAllSelect (s : Scope) : Scope :=
  let rows := s.cachesets.map (fun r =>
    if s.cachesetsAllSelected then { r with selected := false }
    else { r with selected := true })
  updateCacheSetsSelection { s with cachesets := rows } true

/-- `cacheSetCancel()`. -/
def cacheSetCancel (s : Scope) : Scope :=
  updateCacheSetsSelection s true

/-- `cacheSetDelete()`: enter delete mode. -/
def cacheSetDelete (s : Scope) : Scope :=
  { s with cachesetsMode := SelectionMode.DELETE }

/-- `quickCacheSetDelete(cacheset)` for the row at index `i`. -/
def quickCacheSetDelete (s : Scope) (i : Nat) : Scope :=
  match s.cachesets.get? i with
  | none => s
  | some r =>
    cacheSetDelete
      (updateCacheSetsSelection
        { s with cachesets :=
            ((s.cachesets.map (fun c => { c with selected := false })).set i
              { r with selected := true }) }
        true)

/-- `cacheSetConfirmDelete(cacheset)` for the row at index `i`. -/
def cacheSetConfirmDelete (s : Scope) (i : Nat) : Scope :=
  match s.cachesets.get? i with
  | none => s
  | some r =>
    let s1 := { s with rpcs := s.rpcs ++
      [StorageRpc.deleteCacheSet s.node.system_id r.cache_set_id] }
    updateCacheSetsSelection
      { s1 with cachesets := s1.cachesets.eraseIdx i } false

/-! ## NodeStorageController: available section -/

/-- `getSelectedAvailable()`. -/
def getSelectedAvailable (s : Scope) : List AvailRow :=
  s.available.filter (·.selected)

/-- `updateAvailableSelection(force)`. -/
def updateAvailableSelection (s : Scope) (force : Bool) : Scope :=
  let available := getSelectedAvailable s
  let s1 :=
    if available.length = 0 then
      { s with availableMode := SelectionMode.NONE }
    else if available.length == 1 && force then
      { s with availableMode := SelectionMode.SINGLE }
    else if force then
      { s with availableMode := SelectionMode.MUTLI }
    else s
  if s1.available.length = 0 then
    { s1 with availableAllSelected := false }
  else if available.length = s1.available.length then
    { s1 with availableAllSelected := true }
  else
    { s1 with availableAllSelected := false }

/-- `updateAvailable()`: rebuild the available rows from `node.disks`, carry
`$selected` and `$options` over by key, rebuild the key map, re-point the
`availableNew` device references into the new rows, and update the selection
mode. -/
def updateAvailable (s : Scope) : Scope :=
  let rows := (builtAvailable s.node).map (availCarry s.availableMap)
  let m := availMapOfRows rows
  let s1 := { s with available := rows, availableMap := m }
  let s2 :=
    match s1.availableNew.device with
    | some device =>
      { s1 with availableNew := { s1.availableNew with
          device := List.lookup (getUniqueKey device.keyFields) m } }
    | none =>
      match s1.availableNew.devices with
      | some devices =>
        { s1 with availableNew := { s1.availableNew with
            devices := some (devices.filterMap (fun device =>
              List.lookup (getUniqueKey device.keyFields) m)) } }
      | none => s1
  updateAvailableSelection s2 false

/-- `toggleAvailableSelect(disk)` for the row at index `i`. -/
def toggleAvailableSelect (s : Scope) (i : Nat) : Scope :=
  match s.available.get? i with
  | none => s
  | some disk =>
    updateAvailableSelection
      { s with available := s.available.set i { disk with selected := !disk.selected } }
      true

/-- `toggleAvailableAllSelect()`. -/
def toggleAvailableAllSelect (s : Scope) : Scope :=
  let rows := s.available.map (fun disk =>
    if !s.availableAllSelected then { disk with selected := true }
    else { disk with selected := false })
  updateAvailableSelection { s with available := rows } true

/-- `isAvailableDisabled()`. -/
def isAvailableDisabled (s : Scope) : Bool :=
  (s.availableMode != SelectionMode.NONE &&
   s.availableMode != SelectionMode.SINGLE &&
   s.availableMode != SelectionMode.MUTLI) || isAllStorageDisabled s

/-- `availableCancel()`. -/
def availableCancel (s : Scope) : Scope :=
  let s1 := updateAvailableSelection s true
  { s1 with availableNew := emptyAvailableNew }

/-- `availableUnformat()`: enter unformat mode. -/
def availableUnformat (s : Scope) : Scope :=
  { s with availableMode := SelectionMode.UNFORMAT }

/-- `availableQuickUnformat(disk)` for the row at index `i`. -/
def availableQuickUnformat (s : Scope) (i : Nat) : Scope :=
  match s.available.get? i with
  | none => s
  | some disk =>
    availableUnformat
      (updateAvailableSelection
        { s with available :=
            ((s.available.map (fun d => { d with selected := false })).set i
              { disk with selected := true }) }
        true)

/-- `availableConfirmUnformat(disk)` for the row at index `i`. -/
def availableConfirmUnformat (s : Scope) (i : Nat) : Scope :=
  match s.available.get? i with
  | none => s
  | some disk =>
    let s1 := { s with rpcs := s.rpcs ++
      [StorageRpc.updateFilesystem s.node.system_id disk.block_id
        disk.partition_id none none none] }
    updateAvailableSelection
      { s1 with available := s1.available.set i { disk with fstype := none } }
      true

/-- `availableFormatAndMount(disk)` for the row at index `i`. -/
def availableFormatAndMount (s : Scope) (i : Nat) : Scope :=
  match s.available.get? i with
  | none => s
  | some disk =>
    let options := { emptyOptions with
      fstype := some (jsOrString disk.fstype "ext4"),
      mountPoint := some (jsOrString disk.mount_point ""),
      mountOptions := some (jsOrString disk.mount_options "") }
    { s with
      available := s.available.set i { disk with options := fstypeChanged options },
      availableMode := SelectionMode.FORMAT_AND_MOUNT }

/-- `availableQuickFormatAndMount(disk)` for the row at index `i`. -/
def availableQuickFormatAndMount (s : Scope) (i : Nat) : Scope :=
  match s.available.get? i with
  | none => s
  | some disk =>
    availableFormatAndMount
      (updateAvailableSelection
        { s with available :=
            ((s.available.map (fun d => { d with selected := false })).set i
              { disk with selected := true }) }
        true)
      i

/-- `availableConfirmFormatAndMount(disk)` for the row at index `i`: do
nothing when the mount point is invalid, otherwise issue the update, keep
the chosen values on the row, and move the row to the filesystems section
when a mount point was set. -/
def availableConfirmFormatAndMount (s : Scope) (i : Nat) : Scope :=
  match s.available.get? i with
  | none => s
  | some disk =>
    if isMountPointInvalid disk.options.mountPoint then s
    else
      let s1 := { s with rpcs := s.rpcs ++
        [StorageRpc.updateFilesystem s.node.system_id disk.block_id
          disk.partition_id disk.options.fstype disk.options.mountPoint
          disk.options.mountOptions] }
      let disk2 := { disk with
        fstype := disk.options.fstype,
        mount_point := disk.options.mountPoint,
        mount_options := disk.options.mountOptions }
      let s2 := updateAvailableSelection
        { s1 with available := s1.available.set i disk2 } true
      if jsIsNonemptyString disk2.mount_point then
        let newFs : FsRow := {
          type := none, name := disk2.name,
          size_human := disk2.size_human, fstype := disk2.fstype,
          mount_point := disk2.mount_point, mount_options := disk2.mount_options,
          block_id := disk2.block_id, partition_id := disk2.partition_id,
          original_type := none, original := none, selected := false }
        let s3 := { s2 with filesystems := s2.filesystems ++ [newFs] }
        updateAvailableSelection
          { s3 with available := s3.available.eraseIdx i } true
      else s2

/-- `availableDelete()`: enter delete mode. -/
def availableDelete (s : Scope) : Scope :=
  { s with availableMode := SelectionMode.DELETE }

/-- `availableQuickDelete(disk)` for the row at index `i`. -/
def availableQuickDelete (s : Scope) (i : Nat) : Scope :=
  match s.available.get? i with
  | none => s
  | some disk =>
    availableDelete
      (updateAvailableSelection
        { s with available :=
            ((s.available.map (fun d => { d with selected := false })).set i
              { disk with selected := true }) }
        true)

/-- `availableConfirmDelete(disk)` for the row at index `i`. -/
def availableConfirmDelete (s : Scope) (i : Nat) : Scope :=
  match s.available.get? i with
  | none => s
  | some disk =>
    let s1 :=
      if disk.type = "lvm-vg" then
        { s with rpcs := s.rpcs ++
          [StorageRpc.deleteVolumeGroup s.node.system_id disk.block_id] }
      else if disk.type = "partition" then
        { s with rpcs := s.rpcs ++
          [StorageRpc.deletePartition s.node.system_id disk.partition_id] }
      else
        { s with rpcs := s.rpcs ++
          [StorageRpc.deleteDisk s.node.system_id disk.block_id] }
    updateAvailableSelection
      { s1 with available := s1.available.eraseIdx i } true

/-- `availablePartition(disk)` for the row at index `i`: enter partition
mode with the options prefilled from the human-readable available size. -/
def availablePartition (s : Scope) (i : Nat) : Scope :=
  match s.available.get? i with
  | none => s
  | some disk =>
    let size_and_units := disk.available_size_human.splitOn " "
    let options := { emptyOptions with
      size := size_and_units.get? 0,
      sizeUnits := size_and_units.get? 1,
      fstype := none, mountPoint := some "", mountOptions := some "" }
    { s with
      availableMode := SelectionMode.PARTITION,
      available := s.available.set i { disk with options := options } }

/-- `availableQuickPartition(disk)` for the row at index `i`. -/
def availableQuickPartition (s : Scope) (i : Nat) : Scope :=
  match s.available.get? i with
  | none => s
  | some disk =>
    availablePartition
      (updateAvailableSelection
        { s with available :=
            ((s.available.map (fun d => { d with selected := false })).set i
              { disk with selected := true }) }
        true)
      i

/-- `availablePartitionSpace(disk)`: the usable partition space, reserving
room for a partition table (and a prep partition on ppc64el) when the disk
has none. -/
def availablePartitionSpace (cs : Converter) (s : Scope) (disk : AvailRow) : ℚ :=
  let space_to_reserve :=
    if !jsIsNonemptyString disk.original.partition_table_type then
      PARTITION_TABLE_EXTRA_SPACE +
        (if s.node.architecture.startsWith "ppc64el" then PREP_PARTITION_SIZE
         else 0)
    else 0
  cs.roundByBlockSize (disk.original.available_size - space_to_reserve)
    PARTITION_ALIGNMENT_SIZE

/-- `isAddPartitionSizeInvalid(disk)`. -/
def isAddPartitionSizeInvalid (cs : Converter) (disk : AvailRow) : Bool :=
  if disk.options.size == some "" || !isNumber (jsUndefStr disk.options.size) then
    true
  else
    let bytes := cs.unitsToBytes (jsUndefStr disk.options.size)
      (jsUndefStr disk.options.sizeUnits)
    if bytes < MIN_PARTITION_SIZE then true
    else if bytes > disk.original.available_size then
      let rounded := cs.roundUnits (jsUndefStr disk.options.size)
        (jsUndefStr disk.options.sizeUnits)
      if rounded > disk.original.available_size then true else false
    else false

/-- The `params` object built for `createPartition` and
`createLogicalVolume`: the fstype when one was chosen, and the mount fields
when additionally a mount point was typed. -/
def mountParamsFstype (options : AvailOptions) : Option String :=
  match options.fstype with
  | some f => if f = "" then none else some f
  | none => none

def mountParamsMountPoint (options : AvailOptions) : Option String :=
  if (mountParamsFstype options).isSome && options.mountPoint != some "" then
    options.mountPoint
  else none

def mountParamsMountOptions (options : AvailOptions) : Option String :=
  if (mountParamsFstype options).isSome && options.mountPoint != some "" then
    options.mountOptions
  else none

/-- `availableConfirmPartition(disk)` for the row at index `i`: do nothing
when the size or mount point is invalid; otherwise compute the byte size
(whole disk when the prefilled defaults were accepted, clamped to the usable
space), issue the create, and drop the row when it is fully used. -/
def availableConfirmPartition (cs : Converter) (s : Scope) (i : Nat) : Scope :=
  match s.available.get? i with
  | none => s
  | some disk =>
    if isAddPartitionSizeInvalid cs disk ||
        isMountPointInvalid disk.options.mountPoint then s
    else
      let bytes0 := cs.unitsToBytes (jsUndefStr disk.options.size)
        (jsUndefStr disk.options.sizeUnits)
      let size_and_units := disk.original.available_size_human.splitOn " "
      let bytes1 :=
        if disk.options.size == size_and_units.get? 0 &&
            disk.options.sizeUnits == size_and_units.get? 1 then
          disk.original.available_size
        else bytes0
      let available_space := availablePartitionSpace cs s disk
      let removeDisk := decide (bytes1 ≥ available_space)
      let bytes2 := if bytes1 ≥ available_space then available_space else bytes1
      let s1 := { s with rpcs := s.rpcs ++
        [StorageRpc.createPartition s.node.system_id disk.block_id bytes2
          (mountParamsFstype disk.options)
          (mountParamsMountPoint disk.options)
          (mountParamsMountOptions disk.options)] }
      let s2 := { s1 with available :=
        if removeDisk then s1.available.eraseIdx i else s1.available }
      updateAvailableSelection s2 true

/-! ## NodeStorageController: cache set / bcache / RAID / volume group creation -/

/-- `canCreateCacheSet()`. -/
def canCreateCacheSet (s : Scope) : Bool :=
  if isAvailableDisabled s || !isSuperUser s then false
  else
    match getSelectedAvailable s with
    | [sel] =>
      !sel.has_partitions && !hasUnmountedFilesystem sel && sel.type != "lvm-vg"
    | _ => false

/-- `createCacheSet()`. -/
def createCacheSet (s : Scope) : Scope :=
  if !canCreateCacheSet s then s
  else
    match getSelectedAvailable s with
    | [] => s
    | disk :: _ =>
      let s1 := { s with rpcs := s.rpcs ++
        [StorageRpc.createCacheSet s.node.system_id disk.block_id
          disk.partition_id] }
      { s1 with available := s1.available.eraseP (fun d => decide (d = disk)) }

/-- `canCreateBcache()`. -/
def canCreateBcache (s : Scope) : Bool :=
  if isAvailableDisabled s || !isSuperUser s then false
  else
    match getSelectedAvailable s with
    | [sel] =>
      (!hasUnmountedFilesystem sel && sel.type != "lvm-vg") &&
        s.cachesets.length > 0
    | _ => false

/-- `createBcache()`: enter bcache mode with a fresh `availableNew`. -/
def createBcache (s : Scope) : Scope :=
  if !canCreateBcache s then s
  else
    { s with
      availableMode := SelectionMode.BCACHE,
      availableNew := { emptyAvailableNew with
        name := some (getNextName s.node "bcache"),
        device := (getSelectedAvailable s).get? 0,
        cacheset := s.cachesets.get? 0,
        cacheMode := some "writeback",
        fstype := none, mountPoint := some "", mountOptions := some "" } }

/-- `canCreateRAID()`. -/
def canCreateRAID (s : Scope) : Bool :=
  if isAvailableDisabled s || !isSuperUser s then false
  else
    let selected := getSelectedAvailable s
    if selected.length > 1 then
      selected.all (fun sel =>
        !hasUnmountedFilesystem sel && sel.type != "lvm-vg")
    else false

/-- `getAvailableRAIDModes()`. -/
def getAvailableRAIDModes (s : Scope) : List RaidMode :=
  match s.availableNew.devices with
  | none => []
  | some devices => RAID_MODES.filter (fun mode => devices.length ≥ mode.min_disks)

/-- `createRAID()`: enter RAID mode with a fresh `availableNew` whose mode
is the first available RAID mode. -/
def createRAID (s : Scope) : Scope :=
  if !canCreateRAID s then s
  else
    let s1 := { s with
      availableMode := SelectionMode.RAID,
      availableNew := { emptyAvailableNew with
        name := some (getNextName s.node "md"),
        devices := some (getSelectedAvailable s),
        mode := none, spares := some [],
        fstype := none, mountPoint := some "", mountOptions := some "" } }
    { s1 with availableNew := { s1.availableNew with
        mode := (getAvailableRAIDModes s1).get? 0 } }

/-- `getNewRAIDSize()`: the human-readable size of the RAID being built,
from the chosen mode, the minimum device size and the number of non-spare
devices. -/
def getNewRAIDSize (cs : Converter) (s : Scope) : String :=
  match s.availableNew.mode with
  | none => ""
  | some mode =>
    let devices := match s.availableNew.devices with
      | some d => d
      | none => []
    let spares := match s.availableNew.spares with
      | some sp => sp
      | none => []
    let numDisks : ℚ := (devices.length : ℚ) - (spares.length : ℚ)
    let minSize := devices.foldl
      (fun acc device =>
        min acc (jsOrQ device.original.available_size device.original.size))
      jsMaxValue
    (cs.bytesToUnits (mode.calculateSize minSize numDisks)).string

/-- `canCreateVolumeGroup()`. -/
def canCreateVolumeGroup (s : Scope) : Bool :=
  if isAvailableDisabled s || !isSuperUser s then false
  else
    let selected := getSelectedAvailable s
    if selected.length > 0 then
      selected.all (fun sel =>
        !sel.has_partitions && !hasUnmountedFilesystem sel &&
          sel.type != "lvm-vg")
    else false

/-- `createVolumeGroup()`: enter volume-group mode with a fresh
`availableNew`. -/
def createVolumeGroup (s : Scope) : Scope :=
  if !canCreateVolumeGroup s then s
  else
    { s with
      availableMode := SelectionMode.VOLUME_GROUP,
      availableNew := { emptyAvailableNew with
        name := some (getNextName s.node "vg"),
        devices := some (getSelectedAvailable s) } }

/-! ## NodeStorageController: logical volumes -/

/-- `availableLogicalVolume(disk)` for the row at index `i`: enter
logical-volume mode with prefilled options. -/
def availableLogicalVolume (s : Scope) (i : Nat) : Scope :=
  match s.available.get? i with
  | none => s
  | some disk =>
    let size_and_units := disk.available_size_human.splitOn " "
    let namePrefix := disk.name ++ "-lv"
    let options := { emptyOptions with
      name := some (getNextName s.node namePrefix),
      size := size_and_units.get? 0,
      sizeUnits := size_and_units.get? 1 }
    { s with
      availableMode := SelectionMode.LOGICAL_VOLUME,
      available := s.available.set i { disk with options := options } }

/-- `isLogicalVolumeNameInvalid(disk)`. -/
def isLogicalVolumeNameInvalid (s : Scope) (disk : AvailRow) : Bool :=
  match disk.options.name with
  | none => false
  | some nm =>
    !(nm.startsWith (disk.name ++ "-")) ||
      nm.length ≤ disk.name.length + 1 ||
      isNameAlreadyInUse s.node nm none

/-- `isAddLogicalVolumeSizeInvalid(disk)`: same logic as the partition size
check. -/
def isAddLogicalVolumeSizeInvalid (cs : Converter) (disk : AvailRow) : Bool :=
  isAddPartitionSizeInvalid cs disk

/-- `availableConfirmLogicalVolume(disk)` for the row at index `i`: do
nothing when the name, size or mount point is invalid; otherwise compute the
byte size (whole group when the prefilled defaults were accepted, clamped to
the available size), issue the create, and drop the row when fully used. -/
def availableConfirmLogicalVolume (cs : Converter) (s : Scope) (i : Nat) :
    Scope :=
  match s.available.get? i with
  | none => s
  | some disk =>
    if isLogicalVolumeNameInvalid s disk ||
        isAddLogicalVolumeSizeInvalid cs disk ||
        isMountPointInvalid disk.options.mountPoint then s
    else
      let bytes0 := cs.unitsToBytes (jsUndefStr disk.options.size)
        (jsUndefStr disk.options.sizeUnits)
      let size_and_units := disk.original.available_size_human.splitOn " "
      let bytes1 :=
        if disk.options.size == size_and_units.get? 0 &&
            disk.options.sizeUnits == size_and_units.get? 1 then
          disk.original.available_size
        else bytes0
      let bytes2 :=
        if bytes1 > disk.original.available_size then
          disk.original.available_size
        else bytes1
      let removeDisk := decide (bytes2 = disk.original.available_size)
      let lvName := (jsUndefStr disk.options.name).drop (disk.name.length + 1)
      let s1 := { s with rpcs := s.rpcs ++
        [StorageRpc.createLogicalVolume s.node.system_id disk.block_id lvName
          bytes2 (mountParamsFstype disk.options)
          (mountParamsMountPoint disk.options)
          (mountParamsMountOptions disk.options)] }
      let s2 := { s1 with available :=
        if removeDisk then s1.available.eraseIdx i else s1.available }
      updateAvailableSelection s2 true

/-! ## Nodes list controller (`nodes_list.js`) -/

/-- A row of a list tab's `filtered_items`. -/
structure NlRow where
  system_id : String
  selected : Bool
  deriving DecidableEq, Repr

/-- `updateAllViewableChecked(tab)`: the computed `allViewableChecked` flag —
false for an empty filtered list, otherwise whether every filtered row is
selected. -/
def updateAllViewableChecked (filtered_items : List NlRow) : Bool :=
  if filtered_items.length = 0 then false
  else filtered_items.all (·.selected)

/-! ## Concrete example data

The initial scope mirrors the controller's initial values; the example
nodes, rows and converter below are used to instantiate the theorems at
concrete inputs.  The key maps of a `Scope` hold the rows as of the last
recompute pass; the JavaScript aliasing between map entries and live row
objects is not modelled, and no operation in this development both mutates
rows and then reads a key map without an intervening recompute. -/

/-- The storage controller's initial scope values. -/
def initialScope (node : Node) (authUser : Option User) : Scope :=
  { node := node, authUser := authUser,
    filesystems := [], filesystemsMap := [],
    filesystemMode := SelectionMode.NONE, filesystemAllSelected := false,
    cachesets := [], cachesetsMap := [],
    cachesetsMode := SelectionMode.NONE, cachesetsAllSelected := false,
    available := [], availableMap := [],
    availableMode := SelectionMode.NONE, availableAllSelected := false,
    availableNew := emptyAvailableNew, rpcs := [] }

/-- A converter instance used to instantiate converter-parameterized
operations at concrete inputs. -/
def trivialConverter : Converter :=
  { unitsToBytes := fun _ _ => 0, roundUnits := fun _ _ => 0,
    roundByBlockSize := fun a _ => a, bytesToUnits := fun _ => { string := "" } }

/-- An authenticated superuser. -/
def exUser : User := { is_superuser := true, username := "admin" }

/-- A mounted ext4 filesystem. -/
def exMountedFs (mp : String) : Filesystem :=
  { fstype := "ext4", mount_point := some mp, mount_options := some "",
    is_format_fstype := true }

/-- A physical disk wholly used by a mounted filesystem. -/
def exMountedDisk (id : Nat) (name : String) (mp : String) : Disk :=
  { id := id, name := name, size_human := "100 GB",
    available_size_human := "0 B", used_size_human := "100 GB",
    type := "physical", model := "QEMU", serial := "0001", tags := [],
    filesystem := some (exMountedFs mp), partitions := [],
    available_size := 0, used_size := 100000000000, size := 100000000000,
    partition_table_type := none, is_boot := false,
    used_for := "ext4 filesystem", parent := none }

/-- A node with no disks. -/
def exEmptyNode : Node :=
  { system_id := "node0", architecture := "amd64/generic", owner := "admin",
    status := "Ready", disks := [], special_filesystems := [] }

/-- A node with one mounted disk. -/
def exNodeOneMounted : Node :=
  { system_id := "node1", architecture := "amd64/generic", owner := "admin",
    status := "Ready", disks := [exMountedDisk 1 "sda" "/srv"],
    special_filesystems := [] }

/-- A node with two mounted disks. -/
def exNodeTwoMounted : Node :=
  { system_id := "node2", architecture := "amd64/generic", owner := "admin",
    status := "Ready",
    disks := [exMountedDisk 1 "sda" "/srv", exMountedDisk 2 "sdb" "/data"],
    special_filesystems := [] }

/-- C5 trace: after a recompute pass of the two-disk node, select both
filesystem rows, enter unmount mode, and confirm the unmount of the first
row. -/
def exC5Start : Scope :=
  updateFilesystems (initialScope exNodeTwoMounted (some exUser))

def exC5End : Scope :=
  filesystemConfirmUnmount
    (filesystemUnmount
      (toggleFilesystemSelect (toggleFilesystemSelect exC5Start 0) 1)) 0

/-- C4 counterexample scope: a freshly initialized scope with an empty
filesystems view. -/
def exC4Empty : Scope := initialScope exEmptyNode none

/-- C4 witness scope: the one-disk node with its single filesystem row
selected. -/
def exC4Selected : Scope :=
  toggleFilesystemSelect
    (updateFilesystems (initialScope exNodeOneMounted (some exUser))) 0

/-- C7 witness: an old filesystems map remembering the single row of the
one-mounted-disk node as selected. -/
def exC7OldRow : FsRow :=
  { type := some "filesystem", name := "sda", size_human := "100 GB",
    fstype := some "ext4", mount_point := some "/srv", mount_options := some "",
    block_id := some 1, partition_id := none, original_type := some "physical",
    original := some (origOfDisk (exMountedDisk 1 "sda" "/srv")),
    selected := true }

def exC7Scope : Scope :=
  { initialScope exNodeOneMounted (some exUser) with
    filesystemsMap := [(getUniqueKey exC7OldRow.keyFields, exC7OldRow)] }

/-- The row rebuilt by `updateFilesystems` on `exC7Scope`, carrying the old
selection. -/
def exC7NewRow : FsRow := { exC7OldRow with selected := true }

/-- C10: an available row whose `$options` hold an invalid mount point
(a non-empty value other than `"none"` not starting with a slash). -/
def exC10Row : AvailRow :=
  { name := "sdc", size_human := "100 GB", available_size_human := "100 GB",
    used_size_human := "0 B", type := "physical", model := "QEMU",
    serial := "0003", tags := [], fstype := none, mount_point := none,
    mount_options := none, block_id := some 3, partition_id := none,
    has_partitions := false, is_boot := false,
    original := {
      id := 3, name := "sdc", available_size := 100000000000,
      available_size_human := "100 GB", size := 100000000000,
      partition_table_type := none, is_boot := false, used_size := 0 },
    parent_type := none, selected := true,
    options := { emptyOptions with
      fstype := some "ext4", mountPoint := some "oops", size := some "100",
      sizeUnits := some "GB", name := some "sdc-lv0" } }

def exC10Scope : Scope :=
  { initialScope exEmptyNode (some exUser) with available := [exC10Row] }

/-- C9 witness key fields: two physical-disk rows with different block ids,
and two cache-set rows with different cache-set ids. -/
def exKeyPhys1 : DiskKeyFields :=
  { type := "physical", cache_set_id := none, block_id := some 1,
    partition_id := none }

def exKeyPhys2 : DiskKeyFields :=
  { type := "physical", cache_set_id := none, block_id := some 2,
    partition_id := none }

/-- C9 witness rows: two available rows with the same key fields but
different names, sizes and selection flags. -/
def exC9RowA : AvailRow := exC10Row

def exC9RowB : AvailRow :=
  { exC10Row with name := "other", size_human := "1 GB", selected := false }

/-!
# Theorems

General-purpose lemmas first (decimal rendering, list bookkeeping, the
shape of the selection-update functions), then one theorem per claim,
each with its witness or counterexample.
-/

/-! ## Decimal rendering -/

theorem digitChar_inj_fin : ∀ a b : Fin 10,
    digitChar a.val = digitChar b.val → a = b := by decide

theorem digitChar_isDigit_fin : ∀ a : Fin 10,
    (digitChar a.val).isDigit = true := by decide

theorem natToDigitsRev_eq_digits :
    ∀ (fuel n : Nat), n < fuel → natToDigitsRev fuel n = Nat.digits 10 n := by
  intro fuel
  induction fuel with
  | zero => intro n h; omega
  | succ f ih =>
    intro n h
    by_cases h0 : n = 0
    · subst h0; simp [natToDigitsRev]
    · have hdiv : n / 10 < f := by
        have h1 : n / 10 < n := Nat.div_lt_self (Nat.pos_of_ne_zero h0) (by norm_num)
        omega
      rw [natToDigitsRev, if_neg h0, ih (n / 10) hdiv,
        Nat.digits_def' (by norm_num : (1 : ℕ) < 10) (Nat.pos_of_ne_zero h0)]

theorem natDigits_eq_digits (n : Nat) : natDigits n = Nat.digits 10 n :=
  natToDigitsRev_eq_digits (n + 1) n (Nat.lt_succ_self n)

theorem natDigitsJs_lt (n : Nat) : ∀ d ∈ natDigitsJs n, d < 10 := by
  intro d hd
  unfold natDigitsJs at hd
  by_cases h0 : n = 0
  · simp [h0] at hd; omega
  · rw [if_neg h0, natDigits_eq_digits] at hd
    exact Nat.digits_lt_base (by norm_num) hd

theorem digits_ne_zero_singleton {n : Nat} (h0 : n ≠ 0) :
    Nat.digits 10 n ≠ [0] := by
  intro h
  have := Nat.ofDigits_digits 10 n
  rw [h] at this
  simp [Nat.ofDigits] at this
  exact h0 this.symm

theorem natDigitsJs_inj : ∀ {m n : Nat}, natDigitsJs m = natDigitsJs n → m = n := by
  intro m n h
  unfold natDigitsJs at h
  by_cases hm : m = 0 <;> by_cases hn : n = 0
  · rw [hm, hn]
  · rw [if_pos hm, if_neg hn, natDigits_eq_digits] at h
    exact absurd h.symm (digits_ne_zero_singleton hn)
  · rw [if_neg hm, if_pos hn, natDigits_eq_digits] at h
    exact absurd h (digits_ne_zero_singleton hm)
  · rw [if_neg hm, if_neg hn, natDigits_eq_digits, natDigits_eq_digits] at h
    exact Nat.digits_inj_iff.mp h

theorem map_digitChar_inj :
    ∀ (l1 l2 : List Nat), (∀ d ∈ l1, d < 10) → (∀ d ∈ l2, d < 10) →
      l1.map digitChar = l2.map digitChar → l1 = l2 := by
  intro l1
  induction l1 with
  | nil => intro l2 _ _ h; cases l2 <;> simp_all
  | cons a t ih =>
    intro l2 h1 h2 h
    cases l2 with
    | nil => simp at h
    | cons b t2 =>
      simp only [List.map_cons, List.cons.injEq] at h
      have ha : a < 10 := h1 a (List.mem_cons_self a t)
      have hb : b < 10 := h2 b (List.mem_cons_self b t2)
      have hab : a = b := by
        have := digitChar_inj_fin ⟨a, ha⟩ ⟨b, hb⟩ h.1
        exact congrArg Fin.val this
      have ht : t = t2 := ih t2
        (fun d hd => h1 d (List.mem_cons_of_mem a hd))
        (fun d hd => h2 d (List.mem_cons_of_mem b hd)) h.2
      rw [hab, ht]

theorem natToString_inj : ∀ {m n : Nat}, natToString m = natToString n → m = n := by
  intro m n h
  unfold natToString at h
  have hdata := congrArg String.data h
  simp only [String.data] at hdata
  have hmap := List.reverse_injective hdata
  exact natDigitsJs_inj
    (map_digitChar_inj _ _ (natDigitsJs_lt m) (natDigitsJs_lt n) hmap)

theorem natToString_all_digits (n : Nat) :
    ∀ c ∈ (natToString n).data, c.isDigit = true := by
  intro c hc
  unfold natToString at hc
  simp only [String.data] at hc
  rw [List.mem_reverse] at hc
  obtain ⟨d, hd, rfl⟩ := List.mem_map.mp hc
  exact digitChar_isDigit_fin ⟨d, natDigitsJs_lt n d hd⟩

theorem natToString_no_dash (n : Nat) : '-' ∉ (natToString n).data := by
  intro h
  have := natToString_all_digits n '-' h
  simp [Char.isDigit] at this

theorem jsNullNat_no_dash (o : Option Nat) : '-' ∉ (jsNullNat o).data := by
  cases o with
  | none => decide
  | some n => exact natToString_no_dash n

theorem jsNullNat_inj : ∀ {o1 o2 : Option Nat},
    jsNullNat o1 = jsNullNat o2 → o1 = o2 := by
  intro o1 o2 h
  cases o1 with
  | none =>
    cases o2 with
    | none => rfl
    | some n =>
      exfalso
      have hd := congrArg String.data h
      have hmem : 'n' ∈ (natToString n).data := by
        simp only [jsNullNat] at hd; rw [← hd]; decide
      have := natToString_all_digits n 'n' hmem
      simp [Char.isDigit] at this
  | some m =>
    cases o2 with
    | none =>
      exfalso
      have hd := congrArg String.data h
      have hmem : 'n' ∈ (natToString m).data := by
        simp only [jsNullNat] at hd; rw [hd]; decide
      have := natToString_all_digits m 'n' hmem
      simp [Char.isDigit] at this
    | some n => exact congrArg some (natToString_inj h)

theorem jsUndefNat_inj : ∀ {o1 o2 : Option Nat},
    jsUndefNat o1 = jsUndefNat o2 → o1 = o2 := by
  intro o1 o2 h
  cases o1 with
  | none =>
    cases o2 with
    | none => rfl
    | some n =>
      exfalso
      have hd := congrArg String.data h
      have hmem : 'u' ∈ (natToString n).data := by
        simp only [jsUndefNat] at hd; rw [← hd]; decide
      have := natToString_all_digits n 'u' hmem
      simp [Char.isDigit] at this
  | some m =>
    cases o2 with
    | none =>
      exfalso
      have hd := congrArg String.data h
      have hmem : 'u' ∈ (natToString m).data := by
        simp only [jsUndefNat] at hd; rw [hd]; decide
      have := natToString_all_digits m 'u' hmem
      simp [Char.isDigit] at this
    | some n => exact congrArg some (natToString_inj h)

/-- Splitting a character list at a separator absent from both prefixes. -/
theorem dash_split :
    ∀ (a1 c1 a2 c2 : List Char), '-' ∉ a1 → '-' ∉ a2 →
      a1 ++ '-' :: c1 = a2 ++ '-' :: c2 → a1 = a2 ∧ c1 = c2 := by
  intro a1
  induction a1 with
  | nil =>
    intro c1 a2 c2 _ h2 h
    cases a2 with
    | nil => simpa using h
    | cons y t2 =>
      exfalso
      simp only [List.nil_append, List.cons_append, List.cons.injEq] at h
      exact h2 (h.1 ▸ List.mem_cons_self y t2)
  | cons x t ih =>
    intro c1 a2 c2 h1 h2 h
    cases a2 with
    | nil =>
      exfalso
      simp only [List.cons_append, List.nil_append, List.cons.injEq] at h
      exact h1 (h.1 ▸ List.mem_cons_self x t)
    | cons y t2 =>
      simp only [List.cons_append, List.cons.injEq] at h
      have := ih c1 t2 c2
        (fun hm => h1 (List.mem_cons_of_mem x hm))
        (fun hm => h2 (List.mem_cons_of_mem y hm)) h.2
      exact ⟨by rw [h.1, this.1], this.2⟩

theorem string_append_cancel_left {s t1 t2 : String} (h : s ++ t1 = s ++ t2) :
    t1 = t2 := by
  have hd := congrArg String.data h
  rw [String.data_append, String.data_append] at hd
  exact String.ext (List.append_cancel_left hd)

/-! ## Shape of `getUniqueKey` -/

/-- The character data of a non-cache-set key: the type, a dash, the block
id, and optionally a dash and the partition id. -/
theorem getUniqueKey_data_noncache (f : DiskKeyFields) (h : f.type ≠ "cache-set") :
    (getUniqueKey f).data =
      f.type.data ++ '-' ::
        ((jsNullNat f.block_id).data ++
          (match f.partition_id with
           | some pid => '-' :: (natToString pid).data
           | none => [])) := by
  unfold getUniqueKey
  rw [if_neg h]
  cases f.partition_id with
  | none => simp [String.data_append]
  | some pid => simp [String.data_append]

theorem getUniqueKey_eq_iff_noncache (f1 f2 : DiskKeyFields)
    (ht : f1.type = f2.type) (hc : f1.type ≠ "cache-set") :
    getUniqueKey f1 = getUniqueKey f2 ↔
      (f1.block_id = f2.block_id ∧ f1.partition_id = f2.partition_id) := by
  have hc2 : f2.type ≠ "cache-set" := ht ▸ hc
  constructor
  · intro h
    have hd := congrArg String.data h
    rw [getUniqueKey_data_noncache f1 hc, getUniqueKey_data_noncache f2 hc2, ht] at hd
    have hsuffix := List.append_cancel_left hd
    rw [List.cons.injEq] at hsuffix
    have hsuf2 := hsuffix.2
    cases hp1 : f1.partition_id with
    | none =>
      cases hp2 : f2.partition_id with
      | none =>
        rw [hp1, hp2] at hsuf2
        simp only [List.append_nil] at hsuf2
        exact ⟨jsNullNat_inj (String.ext hsuf2), rfl⟩
      | some p2 =>
        exfalso
        rw [hp1, hp2] at hsuf2
        simp only [List.append_nil] at hsuf2
        have hmem : '-' ∈ (jsNullNat f1.block_id).data := by
          rw [hsuf2]
          exact List.mem_append_right _ (List.mem_cons_self _ _)
        exact jsNullNat_no_dash f1.block_id hmem
    | some p1 =>
      cases hp2 : f2.partition_id with
      | none =>
        exfalso
        rw [hp1, hp2] at hsuf2
        simp only [List.append_nil] at hsuf2
        have hmem : '-' ∈ (jsNullNat f2.block_id).data := by
          rw [← hsuf2]
          exact List.mem_append_right _ (List.mem_cons_self _ _)
        exact jsNullNat_no_dash f2.block_id hmem
      | some p2 =>
        rw [hp1, hp2] at hsuf2
        have hsplit := dash_split (jsNullNat f1.block_id).data
          (natToString p1).data (jsNullNat f2.block_id).data
          (natToString p2).data (jsNullNat_no_dash f1.block_id)
          (jsNullNat_no_dash f2.block_id) hsuf2
        exact ⟨jsNullNat_inj (String.ext hsplit.1),
          congrArg some (natToString_inj (String.ext hsplit.2))⟩
  · rintro ⟨hb, hp⟩
    unfold getUniqueKey
    rw [if_neg hc, if_neg hc2, ht, hb, hp]

theorem getUniqueKey_eq_iff_cache (f1 f2 : DiskKeyFields)
    (h1 : f1.type = "cache-set") (h2 : f2.type = "cache-set") :
    getUniqueKey f1 = getUniqueKey f2 ↔ f1.cache_set_id = f2.cache_set_id := by
  unfold getUniqueKey
  rw [if_pos h1, if_pos h2]
  constructor
  · intro h
    exact jsUndefNat_inj (string_append_cancel_left h)
  · intro h
    rw [h]

/-! ## Active-item tracker lemmas -/

theorem resolveActivation_hit {α : Type} (s : ActiveTracker α) (t : Nat) (x : α)
    (h : t = s.requestId) :
    resolveActivation s t x = { s with activeItem := some x } := by
  unfold resolveActivation
  rw [if_pos h]

theorem resolveActivation_miss {α : Type} (s : ActiveTracker α) (t : Nat) (x : α)
    (h : t ≠ s.requestId) :
    resolveActivation s t x = s := by
  unfold resolveActivation
  rw [if_neg h]

/-- Two overlapping activations: whichever order the two resolutions arrive
in, the result carrying the newer token wins. -/
theorem resolve_race {α : Type} (s0 : ActiveTracker α) (t1 t2 : Nat) (a b : α)
    (hne : t1 ≠ t2) (h2 : t2 = s0.requestId) :
    (resolveActivation (resolveActivation s0 t1 a) t2 b).activeItem = some b ∧
    (resolveActivation (resolveActivation s0 t2 b) t1 a).activeItem = some b := by
  constructor
  · rw [resolveActivation_miss s0 t1 a (h2 ▸ hne),
      resolveActivation_hit s0 t2 b h2]
  · rw [resolveActivation_hit s0 t2 b h2,
      resolveActivation_miss { s0 with activeItem := some b } t1 a (h2 ▸ hne)]

/-! ## Claim theorems -/

/-- Claim C1: the Item Store's active-item tracking keeps at most one item
active, and when a second activation starts before the first resolves, the
final active item is the second request's result regardless of the order in
which the two fetches resolve — a stale in-flight activation never
overwrites a newer one. -/
theorem claim_C1_active_item_race :
    ∀ {α : Type} (s : ActiveTracker α) (a b : α),
      (∀ t : ActiveTracker α, activeCount t ≤ 1) ∧
      (resolveActivation
        (resolveActivation (beginActivation (beginActivation s).1).1
          (beginActivation s).2 a)
        (beginActivation (beginActivation s).1).2 b).activeItem = some b ∧
      (resolveActivation
        (resolveActivation (beginActivation (beginActivation s).1).1
          (beginActivation (beginActivation s).1).2 b)
        (beginActivation s).2 a).activeItem = some b := by
  intro α s a b
  refine ⟨fun t => ?_, ?_, ?_⟩
  · cases h : t.activeItem <;> simp [activeCount, h]
  · exact (resolve_race (beginActivation (beginActivation s).1).1
      (beginActivation s).2 (beginActivation (beginActivation s).1).2 a b
      (show s.requestId + 1 ≠ s.requestId + 1 + 1 by omega) rfl).1
  · exact (resolve_race (beginActivation (beginActivation s).1).1
      (beginActivation s).2 (beginActivation (beginActivation s).1).2 a b
      (show s.requestId + 1 ≠ s.requestId + 1 + 1 by omega) rfl).2

/-- Claim C2: the `ControllersManager` constructor sets its object-type tag
`_handler` to `"controller"` but registers its `(action, data)` notification
callback on the `"machine"` channel, not on the `"controller"` channel the
claim (and the factory's own header comment) describe. -/
theorem claim_C2_notifier_channel :
    controllersManager.notifyChannel = "machine" ∧
    controllersManager.handler = "controller" ∧
    controllersManager.notifyChannel ≠ controllersManager.handler := by
  refine ⟨rfl, rfl, ?_⟩
  decide

/-- Claim C3: each entry of `RAID_MODES` computes its size as a pure
function of the minimum member-disk size and the disk count, matching the
formula the specification gives for its level. -/
theorem claim_C3_raid_size :
    ∀ m ∈ RAID_MODES, ∀ (minSize numDisks : ℚ),
      raidSizeSpec m.level minSize numDisks =
        some (m.calculateSize minSize numDisks) := by
  intro m hm
  fin_cases hm <;> intro minSize numDisks <;> simp [raidSizeSpec]

/-- Claim C3 witness: the raid-0 entry at a concrete size and disk count. -/
theorem claim_C3_witness :
    raidSizeSpec "raid-0" 4096 2 = some (4096 * 2) := by
  have h := claim_C3_raid_size (RAID_MODES.get ⟨0, by norm_num [RAID_MODES]⟩)
    (List.get_mem _ _ _) 4096 2
  simpa [RAID_MODES] using h

/-- Claim C8: `performAction` issues exactly one call, whose method is the
manager's object-type tag followed by `.action` and whose parameters are
exactly the item's primary-key value, the action name, and the caller's
extra mapping (defaulted to `{}`), and returns the transport's outcome
unchanged. -/
theorem claim_C8_perform_action :
    ∀ {ρ ε : Type} (callMethod : String → CtrlActionParams → CtrlPromise ρ ε)
      (controller : Ctrl) (action : String)
      (extra : Option (List (String × String))),
      controllersManager.pk = "system_id" ∧
      (performAction callMethod controller action extra).1 =
        [(controllersManager.handler ++ ".action",
          { system_id := controller.system_id, action := action,
            extra := extra.getD [] })] ∧
      (performAction callMethod controller action extra).2 =
        callMethod (controllersManager.handler ++ ".action")
          { system_id := controller.system_id, action := action,
            extra := extra.getD [] } := by
  intro ρ ε callMethod controller action extra
  cases extra <;> exact ⟨rfl, rfl, rfl⟩

/-- Claim C9: `getUniqueKey` follows the stated formula, depends only on the
row's type and id fields (never on mutable fields such as name, size or
selection), and two rows of the same type agree on their key exactly when
they agree on their ids. -/
theorem claim_C9_unique_key :
    (∀ f : DiskKeyFields, getUniqueKey f = getUniqueKeySpec f) ∧
    (∀ r1 r2 : AvailRow, r1.keyFields = r2.keyFields →
      getUniqueKey r1.keyFields = getUniqueKey r2.keyFields) ∧
    (∀ f1 f2 : DiskKeyFields, f1.type = f2.type → f1.type ≠ "cache-set" →
      (getUniqueKey f1 = getUniqueKey f2 ↔
        (f1.block_id = f2.block_id ∧ f1.partition_id = f2.partition_id))) ∧
    (∀ f1 f2 : DiskKeyFields, f1.type = "cache-set" → f2.type = "cache-set" →
      (getUniqueKey f1 = getUniqueKey f2 ↔ f1.cache_set_id = f2.cache_set_id)) := by
  refine ⟨?_, ?_, getUniqueKey_eq_iff_noncache, getUniqueKey_eq_iff_cache⟩
  · intro f
    unfold getUniqueKey getUniqueKeySpec
    by_cases h : f.type = "cache-set"
    · simp [h]
    · simp only [h, if_false]
  · intro r1 r2 h
    rw [h]

/-- Claim C9 witness: two physical rows with different block ids get
different keys, and two rows equal on their key fields but different in
name, size and selection get the same key. -/
theorem claim_C9_witness :
    getUniqueKey exKeyPhys1 ≠ getUniqueKey exKeyPhys2 ∧
    getUniqueKey exC9RowA.keyFields = getUniqueKey exC9RowB.keyFields := by
  constructor
  · intro h
    have hids := (claim_C9_unique_key.2.2.1 exKeyPhys1 exKeyPhys2 rfl
      (by decide)).mp h
    exact absurd hids.1 (by decide)
  · exact claim_C9_unique_key.2.1 exC9RowA exC9RowB (by decide)

/-! ## Shape of the selection-update functions -/

theorem updateFilesystemSelection_eq (s : Scope) (force : Bool) :
    updateFilesystemSelection s force =
      { s with
        filesystemMode :=
          (if (getSelectedFilesystems s).length = 0 then SelectionMode.NONE
           else if (getSelectedFilesystems s).length == 1 && force then
             SelectionMode.SINGLE
           else if force then SelectionMode.MUTLI
           else s.filesystemMode),
        filesystemAllSelected :=
          (if s.filesystems.length = 0 then false
           else if (getSelectedFilesystems s).length = s.filesystems.length then
             true
           else false) } := by
  unfold updateFilesystemSelection
  dsimp only
  split_ifs <;> rfl

theorem updateCacheSetsSelection_eq (s : Scope) (force : Bool) :
    updateCacheSetsSelection s force =
      { s with
        cachesetsMode :=
          (if (getSelectedCacheSets s).length = 0 then SelectionMode.NONE
           else if (getSelectedCacheSets s).length == 1 && force then
             SelectionMode.SINGLE
           else if force then SelectionMode.MUTLI
           else s.cachesetsMode),
        cachesetsAllSelected :=
          (if s.cachesets.length = 0 then false
           else if (getSelectedCacheSets s).length = s.cachesets.length then
             true
           else false) } := by
  unfold updateCacheSetsSelection
  dsimp only
  split_ifs <;> rfl

theorem updateAvailableSelection_eq (s : Scope) (force : Bool) :
    updateAvailableSelection s force =
      { s with
        availableMode :=
          (if (getSelectedAvailable s).length = 0 then SelectionMode.NONE
           else if (getSelectedAvailable s).length == 1 && force then
             SelectionMode.SINGLE
           else if force then SelectionMode.MUTLI
           else s.availableMode),
        availableAllSelected :=
          (if s.available.length = 0 then false
           else if (getSelectedAvailable s).length = s.available.length then
             true
           else false) } := by
  unfold updateAvailableSelection
  dsimp only
  split_ifs <;> rfl

theorem updSelFs_filesystems (s : Scope) (force : Bool) :
    (updateFilesystemSelection s force).filesystems = s.filesystems := by
  rw [updateFilesystemSelection_eq]

theorem updSelCs_cachesets (s : Scope) (force : Bool) :
    (updateCacheSetsSelection s force).cachesets = s.cachesets := by
  rw [updateCacheSetsSelection_eq]

theorem updSelAv_available (s : Scope) (force : Bool) :
    (updateAvailableSelection s force).available = s.available := by
  rw [updateAvailableSelection_eq]

theorem updSelFs_mode_true (s : Scope) :
    (updateFilesystemSelection s true).filesystemMode =
      (if (getSelectedFilesystems s).length = 0 then SelectionMode.NONE
       else if (getSelectedFilesystems s).length = 1 then SelectionMode.SINGLE
       else SelectionMode.MUTLI) := by
  rw [updateFilesystemSelection_eq]
  by_cases h0 : (getSelectedFilesystems s).length = 0
  · simp [h0]
  · by_cases h1 : (getSelectedFilesystems s).length = 1 <;> simp [h0, h1]

theorem updSelFs_mode_false (s : Scope) :
    (updateFilesystemSelection s false).filesystemMode =
      (if (getSelectedFilesystems s).length = 0 then SelectionMode.NONE
       else s.filesystemMode) := by
  rw [updateFilesystemSelection_eq]
  by_cases h0 : (getSelectedFilesystems s).length = 0 <;> simp [h0]

theorem updSelCs_mode_true (s : Scope) :
    (updateCacheSetsSelection s true).cachesetsMode =
      (if (getSelectedCacheSets s).length = 0 then SelectionMode.NONE
       else if (getSelectedCacheSets s).length = 1 then SelectionMode.SINGLE
       else SelectionMode.MUTLI) := by
  rw [updateCacheSetsSelection_eq]
  by_cases h0 : (getSelectedCacheSets s).length = 0
  · simp [h0]
  · by_cases h1 : (getSelectedCacheSets s).length = 1 <;> simp [h0, h1]

theorem updSelCs_mode_false (s : Scope) :
    (updateCacheSetsSelection s false).cachesetsMode =
      (if (getSelectedCacheSets s).length = 0 then SelectionMode.NONE
       else s.cachesetsMode) := by
  rw [updateCacheSetsSelection_eq]
  by_cases h0 : (getSelectedCacheSets s).length = 0 <;> simp [h0]

theorem updSelAv_mode_true (s : Scope) :
    (updateAvailableSelection s true).availableMode =
      (if (getSelectedAvailable s).length = 0 then SelectionMode.NONE
       else if (getSelectedAvailable s).length = 1 then SelectionMode.SINGLE
       else SelectionMode.MUTLI) := by
  rw [updateAvailableSelection_eq]
  by_cases h0 : (getSelectedAvailable s).length = 0
  · simp [h0]
  · by_cases h1 : (getSelectedAvailable s).length = 1 <;> simp [h0, h1]

/-- Removing one row and recomputing without force: the selected count of a
list determines whether the mode collapses to `NONE` or stays put. -/
theorem length_filter_eq_iff {α : Type} (p : α → Bool) (l : List α) :
    (l.filter p).length = l.length ↔ ∀ a ∈ l, p a = true := by
  induction l with
  | nil => simp
  | cons x t ih =>
    cases hx : p x
    · have hle := t.length_filter_le p
      simp only [List.filter_cons, hx, Bool.false_eq_true, if_false,
        List.length_cons, List.mem_cons]
      constructor
      · intro h; omega
      · intro h
        have hcontra := h x (Or.inl rfl)
        rw [hx] at hcontra
        exact absurd hcontra (by simp)
    · simp [List.filter_cons, hx, ih]

/-- Claim C4 (amended): after a selection update, a derived view's
"all selected" flag is true iff the view is non-empty and every row in it is
selected; on an empty view the flag is false even though "every row is
selected" holds vacuously. -/
theorem claim_C4_amended :
    ∀ (s : Scope) (force : Bool) (items : List NlRow),
      ((updateFilesystemSelection s force).filesystemAllSelected = true ↔
        (s.filesystems ≠ [] ∧ ∀ r ∈ s.filesystems, r.selected = true)) ∧
      ((updateCacheSetsSelection s force).cachesetsAllSelected = true ↔
        (s.cachesets ≠ [] ∧ ∀ r ∈ s.cachesets, r.selected = true)) ∧
      ((updateAvailableSelection s force).availableAllSelected = true ↔
        (s.available ≠ [] ∧ ∀ r ∈ s.available, r.selected = true)) ∧
      (updateAllViewableChecked items = true ↔
        (items ≠ [] ∧ ∀ r ∈ items, r.selected = true)) := by
  intro s force items
  refine ⟨?_, ?_, ?_, ?_⟩
  · rw [updateFilesystemSelection_eq]
    dsimp only
    by_cases h0 : s.filesystems.length = 0
    · simp [h0, List.length_eq_zero.mp h0]
    · have hne : s.filesystems ≠ [] := by
        intro h; rw [h] at h0; simp at h0
      by_cases h1 : (getSelectedFilesystems s).length = s.filesystems.length
      · rw [if_neg h0, if_pos h1]
        have h1b := h1
        simp only [getSelectedFilesystems] at h1b
        exact iff_of_true rfl ⟨hne, (length_filter_eq_iff _ _).mp h1b⟩
      · rw [if_neg h0, if_neg h1]
        simp only [Bool.false_eq_true, false_iff, not_and]
        intro _ hall
        apply h1
        simp only [getSelectedFilesystems]
        exact (length_filter_eq_iff _ _).mpr hall
  · rw [updateCacheSetsSelection_eq]
    dsimp only
    by_cases h0 : s.cachesets.length = 0
    · simp [h0, List.length_eq_zero.mp h0]
    · have hne : s.cachesets ≠ [] := by
        intro h; rw [h] at h0; simp at h0
      by_cases h1 : (getSelectedCacheSets s).length = s.cachesets.length
      · rw [if_neg h0, if_pos h1]
        have h1b := h1
        simp only [getSelectedCacheSets] at h1b
        exact iff_of_true rfl ⟨hne, (length_filter_eq_iff _ _).mp h1b⟩
      · rw [if_neg h0, if_neg h1]
        simp only [Bool.false_eq_true, false_iff, not_and]
        intro _ hall
        apply h1
        simp only [getSelectedCacheSets]
        exact (length_filter_eq_iff _ _).mpr hall
  · rw [updateAvailableSelection_eq]
    dsimp only
    by_cases h0 : s.available.length = 0
    · simp [h0, List.length_eq_zero.mp h0]
    · have hne : s.available ≠ [] := by
        intro h; rw [h] at h0; simp at h0
      by_cases h1 : (getSelectedAvailable s).length = s.available.length
      · rw [if_neg h0, if_pos h1]
        have h1b := h1
        simp only [getSelectedAvailable] at h1b
        exact iff_of_true rfl ⟨hne, (length_filter_eq_iff _ _).mp h1b⟩
      · rw [if_neg h0, if_neg h1]
        simp only [Bool.false_eq_true, false_iff, not_and]
        intro _ hall
        apply h1
        simp only [getSelectedAvailable]
        exact (length_filter_eq_iff _ _).mpr hall
  · unfold updateAllViewableChecked
    by_cases h0 : items.length = 0
    · simp [h0, List.length_eq_zero.mp h0]
    · have hne : items ≠ [] := by
        intro h; rw [h] at h0; simp at h0
      rw [if_neg h0, List.all_eq_true]
      simp [hne]

/-- Claim C4 counterexample: on the freshly initialized scope the
filesystems view is empty, so "every row in the view is selected" holds
vacuously while the "all selected" flag is false — the claimed equivalence
fails. -/
theorem claim_C4_counterexample :
    ¬ (((updateFilesystemSelection exC4Empty true).filesystemAllSelected = true) ↔
      (∀ r ∈ exC4Empty.filesystems, r.selected = true)) := by
  decide

/-- Claim C4 witness: a one-row view with its row selected has the flag
set. -/
theorem claim_C4_witness :
    exC4Selected.filesystems ≠ [] ∧
    (∀ r ∈ exC4Selected.filesystems, r.selected = true) ∧
    (updateFilesystemSelection exC4Selected true).filesystemAllSelected = true := by
  refine ⟨by decide, by decide, ?_⟩
  exact ((claim_C4_amended exC4Selected true []).1).mpr ⟨by decide, by decide⟩

/-! ## Mode recomputation after cancel / confirm -/

theorem confirm_fs_shape (s2 : Scope) :
    ((getSelectedFilesystems (updateFilesystemSelection s2 false)).length = 0 →
      (updateFilesystemSelection s2 false).filesystemMode = SelectionMode.NONE) ∧
    ((getSelectedFilesystems (updateFilesystemSelection s2 false)).length ≠ 0 →
      (updateFilesystemSelection s2 false).filesystemMode = s2.filesystemMode) := by
  have hsel : getSelectedFilesystems (updateFilesystemSelection s2 false) =
      getSelectedFilesystems s2 := by
    unfold getSelectedFilesystems
    rw [updSelFs_filesystems]
  rw [hsel, updSelFs_mode_false]
  exact ⟨fun h => by rw [if_pos h], fun h => by rw [if_neg h]⟩

theorem confirm_cs_shape (s2 : Scope) :
    ((getSelectedCacheSets (updateCacheSetsSelection s2 false)).length = 0 →
      (updateCacheSetsSelection s2 false).cachesetsMode = SelectionMode.NONE) ∧
    ((getSelectedCacheSets (updateCacheSetsSelection s2 false)).length ≠ 0 →
      (updateCacheSetsSelection s2 false).cachesetsMode = s2.cachesetsMode) := by
  have hsel : getSelectedCacheSets (updateCacheSetsSelection s2 false) =
      getSelectedCacheSets s2 := by
    unfold getSelectedCacheSets
    rw [updSelCs_cachesets]
  rw [hsel, updSelCs_mode_false]
  exact ⟨fun h => by rw [if_pos h], fun h => by rw [if_neg h]⟩

theorem confirm_av_shape (s2 : Scope) :
    ((getSelectedAvailable (updateAvailableSelection s2 true)).length = 0 →
      (updateAvailableSelection s2 true).availableMode = SelectionMode.NONE) ∧
    ((getSelectedAvailable (updateAvailableSelection s2 true)).length = 1 →
      (updateAvailableSelection s2 true).availableMode = SelectionMode.SINGLE) ∧
    (1 < (getSelectedAvailable (updateAvailableSelection s2 true)).length →
      (updateAvailableSelection s2 true).availableMode = SelectionMode.MUTLI) := by
  have hsel : getSelectedAvailable (updateAvailableSelection s2 true) =
      getSelectedAvailable s2 := by
    unfold getSelectedAvailable
    rw [updSelAv_available]
  rw [hsel, updSelAv_mode_true]
  refine ⟨fun h => by rw [if_pos h], fun h => ?_, fun h => ?_⟩
  · rw [if_neg (by omega), if_pos h]
  · rw [if_neg (by omega), if_neg (by omega)]

/-- Claim C5 (amended): cancelling recomputes the section mode to
NONE/SINGLE/MULTI from the current selected count, and so does confirming a
delete in the available section; but confirming an unmount or a delete in
the filesystems or cache-sets sections only collapses the mode to NONE when
no selected rows remain — otherwise the mode is left unchanged rather than
recomputed to SINGLE/MULTI. -/
theorem claim_C5_amended :
    ∀ (s : Scope) (i : Nat),
      ((getSelectedFilesystems s).length = 0 →
        (filesystemCancel s).filesystemMode = SelectionMode.NONE) ∧
      ((getSelectedFilesystems s).length = 1 →
        (filesystemCancel s).filesystemMode = SelectionMode.SINGLE) ∧
      (1 < (getSelectedFilesystems s).length →
        (filesystemCancel s).filesystemMode = SelectionMode.MUTLI) ∧
      ((getSelectedCacheSets s).length = 0 →
        (cacheSetCancel s).cachesetsMode = SelectionMode.NONE) ∧
      ((getSelectedCacheSets s).length = 1 →
        (cacheSetCancel s).cachesetsMode = SelectionMode.SINGLE) ∧
      (1 < (getSelectedCacheSets s).length →
        (cacheSetCancel s).cachesetsMode = SelectionMode.MUTLI) ∧
      ((getSelectedAvailable s).length = 0 →
        (availableCancel s).availableMode = SelectionMode.NONE) ∧
      ((getSelectedAvailable s).length = 1 →
        (availableCancel s).availableMode = SelectionMode.SINGLE) ∧
      (1 < (getSelectedAvailable s).length →
        (availableCancel s).availableMode = SelectionMode.MUTLI) ∧
      (∀ fs, s.filesystems.get? i = some fs →
        ((getSelectedFilesystems (filesystemConfirmUnmount s i)).length = 0 →
          (filesystemConfirmUnmount s i).filesystemMode = SelectionMode.NONE) ∧
        ((getSelectedFilesystems (filesystemConfirmUnmount s i)).length ≠ 0 →
          (filesystemConfirmUnmount s i).filesystemMode = s.filesystemMode)) ∧
      (∀ fs, s.filesystems.get? i = some fs →
        (fs.original_type = some "special" ∨ fs.original ≠ none) →
        ((getSelectedFilesystems (filesystemConfirmDelete s i)).length = 0 →
          (filesystemConfirmDelete s i).filesystemMode = SelectionMode.NONE) ∧
        ((getSelectedFilesystems (filesystemConfirmDelete s i)).length ≠ 0 →
          (filesystemConfirmDelete s i).filesystemMode = s.filesystemMode)) ∧
      (∀ r, s.cachesets.get? i = some r →
        ((getSelectedCacheSets (cacheSetConfirmDelete s i)).length = 0 →
          (cacheSetConfirmDelete s i).cachesetsMode = SelectionMode.NONE) ∧
        ((getSelectedCacheSets (cacheSetConfirmDelete s i)).length ≠ 0 →
          (cacheSetConfirmDelete s i).cachesetsMode = s.cachesetsMode)) ∧
      (∀ disk, s.available.get? i = some disk →
        ((getSelectedAvailable (availableConfirmDelete s i)).length = 0 →
          (availableConfirmDelete s i).availableMode = SelectionMode.NONE) ∧
        ((getSelectedAvailable (availableConfirmDelete s i)).length = 1 →
          (availableConfirmDelete s i).availableMode = SelectionMode.SINGLE) ∧
        (1 < (getSelectedAvailable (availableConfirmDelete s i)).length →
          (availableConfirmDelete s i).availableMode = SelectionMode.MUTLI)) := by
  intro s i
  refine ⟨?_, ?_, ?_, ?_, ?_, ?_, ?_, ?_, ?_, ?_, ?_, ?_, ?_⟩
  · intro h
    unfold filesystemCancel
    rw [updSelFs_mode_true, if_pos h]
  · intro h
    unfold filesystemCancel
    rw [updSelFs_mode_true, if_neg (by omega), if_pos h]
  · intro h
    unfold filesystemCancel
    rw [updSelFs_mode_true, if_neg (by omega), if_neg (by omega)]
  · intro h
    unfold cacheSetCancel
    rw [updSelCs_mode_true, if_pos h]
  · intro h
    unfold cacheSetCancel
    rw [updSelCs_mode_true, if_neg (by omega), if_pos h]
  · intro h
    unfold cacheSetCancel
    rw [updSelCs_mode_true, if_neg (by omega), if_neg (by omega)]
  · intro h
    unfold availableCancel
    dsimp only
    rw [updSelAv_mode_true, if_pos h]
  · intro h
    unfold availableCancel
    dsimp only
    rw [updSelAv_mode_true, if_neg (by omega), if_pos h]
  · intro h
    unfold availableCancel
    dsimp only
    rw [updSelAv_mode_true, if_neg (by omega), if_neg (by omega)]
  · intro fs hget
    simp only [filesystemConfirmUnmount, hget]
    exact confirm_fs_shape _
  · intro fs hget horig
    simp only [filesystemConfirmDelete, hget]
    by_cases hsp : fs.original_type = some "special"
    · rw [if_pos hsp]
      exact confirm_fs_shape _
    · rw [if_neg hsp]
      have ho : fs.original ≠ none := horig.resolve_left hsp
      by_cases hpt : fs.original_type = some "partition"
      · rw [if_pos hpt]
        cases hoe : fs.original with
        | none => exact absurd hoe ho
        | some o => exact confirm_fs_shape _
      · rw [if_neg hpt]
        cases hoe : fs.original with
        | none => exact absurd hoe ho
        | some o => exact confirm_fs_shape _
  · intro r hget
    simp only [cacheSetConfirmDelete, hget]
    exact confirm_cs_shape _
  · intro disk hget
    simp only [availableConfirmDelete, hget]
    by_cases h1 : disk.type = "lvm-vg"
    · rw [if_pos h1]
      exact confirm_av_shape _
    · rw [if_neg h1]
      by_cases h2 : disk.type = "partition"
      · rw [if_pos h2]
        exact confirm_av_shape _
      · rw [if_neg h2]
        exact confirm_av_shape _

/-- Claim C5 counterexample: with two filesystem rows selected in unmount
mode, confirming the unmount of one leaves exactly one selected row, yet
the mode stays UNMOUNT instead of being recomputed to SINGLE (or any of
NONE/SINGLE/MULTI). -/
theorem claim_C5_counterexample :
    (getSelectedFilesystems exC5End).length = 1 ∧
    exC5End.filesystemMode = SelectionMode.UNMOUNT ∧
    exC5End.filesystemMode ≠ SelectionMode.NONE ∧
    exC5End.filesystemMode ≠ SelectionMode.SINGLE ∧
    exC5End.filesystemMode ≠ SelectionMode.MUTLI := by
  decide

/-- Claim C5 witness: cancelling with no selected rows recomputes the mode
to NONE. -/
theorem claim_C5_witness :
    (getSelectedFilesystems exC4Empty).length = 0 ∧
    (filesystemCancel exC4Empty).filesystemMode = SelectionMode.NONE := by
  exact ⟨by decide, (claim_C5_amended exC4Empty 0).1 (by decide)⟩

/-- Claim C6 (amended): the guarded creation operations never move the
available section from NONE into an action state while zero rows are
selected — with no selected rows they leave the scope unchanged; the plain
mode-setters (such as `availableDelete` or `filesystemUnmount`) do enter
their action state regardless of the selection. -/
theorem claim_C6_amended :
    ∀ s : Scope, (getSelectedAvailable s).length = 0 →
      createCacheSet s = s ∧ createBcache s = s ∧ createRAID s = s ∧
        createVolumeGroup s = s := by
  intro s h
  have hsel : getSelectedAvailable s = [] := List.length_eq_zero.mp h
  have h1 : canCreateCacheSet s = false := by
    unfold canCreateCacheSet
    rw [hsel]
    split <;> rfl
  have h2 : canCreateBcache s = false := by
    unfold canCreateBcache
    rw [hsel]
    split <;> rfl
  have h3 : canCreateRAID s = false := by
    unfold canCreateRAID
    rw [hsel]
    split
    · rfl
    · simp
  have h4 : canCreateVolumeGroup s = false := by
    unfold canCreateVolumeGroup
    rw [hsel]
    split
    · rfl
    · simp
  refine ⟨?_, ?_, ?_, ?_⟩
  · unfold createCacheSet
    rw [h1]
    rfl
  · unfold createBcache
    rw [h2]
    rfl
  · unfold createRAID
    rw [h3]
    rfl
  · unfold createVolumeGroup
    rw [h4]
    rfl

/-- Claim C6 counterexample: from the freshly initialized scope — mode NONE
and zero selected rows — a single call to `availableDelete` moves the
available section directly into the DELETE action state. -/
theorem claim_C6_counterexample :
    (initialScope exEmptyNode none).availableMode = SelectionMode.NONE ∧
    (getSelectedAvailable (initialScope exEmptyNode none)).length = 0 ∧
    (availableDelete (initialScope exEmptyNode none)).availableMode =
      SelectionMode.DELETE := by
  decide

/-- Claim C6 witness: on the initial scope with zero selected rows, the four
guarded creation operations leave the scope unchanged. -/
theorem claim_C6_witness :
    (getSelectedAvailable (initialScope exEmptyNode none)).length = 0 ∧
    createCacheSet (initialScope exEmptyNode none) =
      initialScope exEmptyNode none ∧
    createBcache (initialScope exEmptyNode none) =
      initialScope exEmptyNode none ∧
    createRAID (initialScope exEmptyNode none) =
      initialScope exEmptyNode none ∧
    createVolumeGroup (initialScope exEmptyNode none) =
      initialScope exEmptyNode none := by
  have h := claim_C6_amended (initialScope exEmptyNode none) (by decide)
  exact ⟨by decide, h.1, h.2.1, h.2.2.1, h.2.2.2⟩

/-! ## Recompute and carry-over -/

theorem updateFilesystems_filesystems (s : Scope) :
    (updateFilesystems s).filesystems =
      (builtFilesystems s.node).map (fsCarry s.filesystemsMap) := by
  unfold updateFilesystems
  dsimp only
  rw [updSelFs_filesystems]

theorem updateAvailable_available (s : Scope) :
    (updateAvailable s).available =
      (builtAvailable s.node).map (availCarry s.availableMap) := by
  unfold updateAvailable
  dsimp only
  cases hd : s.availableNew.device with
  | some dev => rw [updSelAv_available]
  | none =>
    cases hds : s.availableNew.devices <;> rw [updSelAv_available]

theorem fsCarry_keyFields (m : List (String × FsRow)) (b : FsRow) :
    (fsCarry m b).keyFields = b.keyFields := by
  unfold fsCarry
  cases List.lookup (getUniqueKey b.keyFields) m <;> rfl

theorem availCarry_keyFields (m : List (String × AvailRow)) (b : AvailRow) :
    (availCarry m b).keyFields = b.keyFields := by
  unfold availCarry
  cases List.lookup (getUniqueKey b.keyFields) m <;> rfl

/-- Claim C7: whenever the filesystems or available view is recomputed from
`node.disks`, every rebuilt row whose stable key matches a row of the
previous pass carries that old row's transient state forward — its
`$selected` flag, and for available rows also the `$options` edit buffer —
and every rebuilt row with no matching old key starts unselected (with an
empty edit buffer in the available view). -/
theorem claim_C7_carry_forward :
    ∀ s : Scope,
      (∀ fs ∈ (updateFilesystems s).filesystems,
        (∀ oldFs, List.lookup (getUniqueKey fs.keyFields) s.filesystemsMap =
            some oldFs → fs.selected = oldFs.selected) ∧
        (List.lookup (getUniqueKey fs.keyFields) s.filesystemsMap = none →
          fs.selected = false)) ∧
      (∀ disk ∈ (updateAvailable s).available,
        (∀ oldDisk, List.lookup (getUniqueKey disk.keyFields) s.availableMap =
            some oldDisk →
          disk.selected = oldDisk.selected ∧ disk.options = oldDisk.options) ∧
        (List.lookup (getUniqueKey disk.keyFields) s.availableMap = none →
          disk.selected = false ∧ disk.options = emptyOptions)) := by
  intro s
  constructor
  · intro fs hmem
    rw [updateFilesystems_filesystems] at hmem
    obtain ⟨b, hb, rfl⟩ := List.mem_map.mp hmem
    rw [fsCarry_keyFields]
    unfold fsCarry
    cases h : List.lookup (getUniqueKey b.keyFields) s.filesystemsMap with
    | none =>
      refine ⟨fun oldFs hold => ?_, fun _ => rfl⟩
      cases hold
    | some o =>
      refine ⟨fun oldFs hold => ?_, fun hnone => ?_⟩
      · injection hold with he
        subst he
        rfl
      · cases hnone
  · intro disk hmem
    rw [updateAvailable_available] at hmem
    obtain ⟨b, hb, rfl⟩ := List.mem_map.mp hmem
    rw [availCarry_keyFields]
    unfold availCarry
    cases h : List.lookup (getUniqueKey b.keyFields) s.availableMap with
    | none =>
      refine ⟨fun oldDisk hold => ?_, fun _ => ⟨rfl, rfl⟩⟩
      cases hold
    | some o =>
      refine ⟨fun oldDisk hold => ?_, fun hnone => ?_⟩
      · injection hold with he
        subst he
        exact ⟨rfl, rfl⟩
      · cases hnone

/-- Claim C7 witness: on the one-disk node with an old map remembering the
row as selected, the rebuilt row is carried forward selected. -/
theorem claim_C7_witness :
    exC7NewRow ∈ (updateFilesystems exC7Scope).filesystems ∧
    exC7NewRow.selected = exC7OldRow.selected := by
  have hmem : exC7NewRow ∈ (updateFilesystems exC7Scope).filesystems := by
    decide
  exact ⟨hmem,
    ((claim_C7_carry_forward exC7Scope).1 exC7NewRow hmem).1 exC7OldRow
      (by decide)⟩

/-- Claim C10: `isMountPointInvalid` is true exactly for a defined,
non-empty mount point other than `"none"` that does not start with a slash,
and whenever it is true of a row's `$options.mountPoint` the three confirm
operations return immediately — no remote call is issued and the scope is
unchanged. -/
theorem claim_C10_mount_point_guard :
    (∀ mountPoint : Option String,
      (isMountPointInvalid mountPoint = true ↔
        ∃ sp, mountPoint = some sp ∧ sp ≠ "" ∧ sp ≠ "none" ∧ sp.front ≠ '/')) ∧
    (∀ (cs : Converter) (s : Scope) (i : Nat) (disk : AvailRow),
      s.available.get? i = some disk →
      isMountPointInvalid disk.options.mountPoint = true →
      availableConfirmFormatAndMount s i = s ∧
      availableConfirmPartition cs s i = s ∧
      availableConfirmLogicalVolume cs s i = s) := by
  constructor
  · intro mountPoint
    cases mountPoint with
    | none => simp [isMountPointInvalid]
    | some sp =>
      unfold isMountPointInvalid
      dsimp only
      by_cases h1 : sp = ""
      · simp [h1]
      · rw [if_neg h1]
        by_cases h2 : sp = "none"
        · simp [h1, h2]
        · rw [if_neg h2]
          by_cases h3 : sp.front ≠ '/'
          · rw [if_pos h3]
            exact iff_of_true rfl ⟨sp, rfl, h1, h2, h3⟩
          · rw [if_neg h3]
            simp only [Bool.false_eq_true, false_iff, not_exists]
            rintro x ⟨hx, -, -, hfront⟩
            injection hx with hx2
            exact h3 (hx2 ▸ hfront)
  · intro cs s i disk hget hinv
    refine ⟨?_, ?_, ?_⟩
    · simp only [availableConfirmFormatAndMount, hget, hinv, if_true]
    · simp only [availableConfirmPartition, hget, hinv, Bool.or_true, if_true]
    · simp only [availableConfirmLogicalVolume, hget, hinv, Bool.or_true,
        if_true]

/-- Claim C10 witness: a concrete row whose `$options.mountPoint` is
`"oops"` — the three confirm operations leave the scope untouched. -/
theorem claim_C10_witness :
    isMountPointInvalid exC10Row.options.mountPoint = true ∧
    availableConfirmFormatAndMount exC10Scope 0 = exC10Scope ∧
    availableConfirmPartition trivialConverter exC10Scope 0 = exC10Scope ∧
    availableConfirmLogicalVolume trivialConverter exC10Scope 0 = exC10Scope := by
  have h := claim_C10_mount_point_guard.2 trivialConverter exC10Scope 0 exC10Row
    (by decide) (by decide)
  exact ⟨by decide, h.1, h.2.1, h.2.2⟩

end Maas
